import Mathlib

/-!
Verification of the FloorTool layout-generation engine
(`src/utils/GenerateLayout.ts`).

The TypeScript source is shallowly embedded over `ℚ`: JavaScript numbers
become exact rationals, `Math.max`/`Math.min` become `max`/`min`, and the
single use of `Math.sqrt` (in the room-sizing step) is abstracted as an
explicit function parameter `sqrtFn : ℚ → ℚ`, so all placement theorems
are quantified over it.  Mutation of the `placed` array becomes explicit
state passing, and the warning strings pushed by the engine become an
inductive `Warning` type carrying the same data.
-/

namespace FloorTool

/-- `Edge` from `FloorForm.tsx`: the four wall directions. -/
inductive Edge
  | N
  | E
  | S
  | W
deriving DecidableEq, Repr

/-- A centered axis-aligned rectangle: center x/y plus width and height,
as consumed by `rectsOverlap`. -/
structure Rect where
  x : ℚ
  y : ℚ
  w : ℚ
  h : ℚ
deriving DecidableEq, Repr

/-- `PlacedDoor` from `GenerateLayout.ts`: a door segment's two endpoints. -/
structure PlacedDoor where
  x1 : ℚ
  y1 : ℚ
  x2 : ℚ
  y2 : ℚ
deriving DecidableEq, Repr

/-- A per-room door spec as carried on `PlacedRoom.rawDoors`. -/
structure DoorSpec where
  side : Edge
  width : ℚ
  offsetRatio : ℚ
deriving DecidableEq, Repr

/-- `DoorInput` from `FloorForm.tsx` (the per-door `id` is dropped when the
engine copies doors onto a placed room). -/
structure DoorInput where
  id : String
  side : Edge
  width : ℚ
  offsetRatio : ℚ
deriving DecidableEq, Repr

/-- `RoomInput` from `FloorForm.tsx`.  The room type is a string at runtime;
the four known types are "living", "kitchen", "bed", "wc". -/
structure RoomReq where
  id : String
  type : String
  doors : List DoorInput
deriving DecidableEq, Repr

/-- The `mainDoor` descriptor of the floor input. -/
structure MainDoorSpec where
  edge : Edge
  offset : ℚ
  width : ℚ
deriving DecidableEq, Repr

/-- The `floor` part of `FloorInput`. -/
structure FloorSpec where
  width : ℚ
  height : ℚ
  mainDoor : MainDoorSpec
deriving DecidableEq, Repr

/-- The optional `walls` override read by the engine via
`input.walls?.exteriorThickness ?? d`. -/
structure WallsInput where
  exteriorThickness : Option ℚ
deriving DecidableEq, Repr

/-- `FloorInput`: the engine's input. -/
structure FloorInput where
  floor : FloorSpec
  rooms : List RoomReq
  walls : Option WallsInput
deriving DecidableEq, Repr

/-- `input.walls?.exteriorThickness ?? dflt`. -/
def exteriorThicknessOr (input : FloorInput) (dflt : ℚ) : ℚ :=
  match input.walls with
  | some w => w.exteriorThickness.getD dflt
  | none => dflt

/-- `PlacedRoom` from `GenerateLayout.ts`. -/
structure PlacedRoom where
  id : String
  type : String
  x : ℚ
  y : ℚ
  w : ℚ
  h : ℚ
  color : String
  label : String
  rawDoors : Option (List DoorSpec) := none
deriving DecidableEq, Repr

/-- One entry of `RoomValidationResult.details`. -/
structure ValidationDetail where
  type : String
  label : String
  count : ℕ
  minAreaPerRoom : ℚ
  totalMinArea : ℚ
deriving DecidableEq, Repr

/-- `RoomValidationResult` from `GenerateLayout.ts`. -/
structure RoomValidationResult where
  isValid : Bool
  usableArea : ℚ
  requiredMinArea : ℚ
  shortage : ℚ
  efficiency : ℚ
  details : List ValidationDetail
deriving DecidableEq, Repr

/-- The warning strings the engine pushes, as an inductive carrying the
same data: low/high efficiency, a dropped room (`"<label>: không thể đặt —
bỏ qua."`), a too-thick exterior wall, and the usable-area advisory. -/
inductive Warning
  | lowEfficiency (eff : ℚ)
  | highEfficiency (eff : ℚ)
  | cannotPlace (label : String)
  | thickWall (t : ℚ)
  | insufficientArea
deriving DecidableEq, Repr

/-- `LayoutResult` from `GenerateLayout.ts` (the `floor` echo is flattened
into the first three fields). -/
structure LayoutResult where
  floorWidth : ℚ
  floorHeight : ℚ
  mainDoor : PlacedDoor
  rooms : List PlacedRoom
  warnings : List Warning
  validation : Option RoomValidationResult := none
deriving DecidableEq, Repr

/-- A canned size preset from the catalogue resource. -/
structure SizePreset where
  w : ℚ
  h : ℚ
  area : ℚ
deriving DecidableEq, Repr

/-- The `area: {min, max}` range of a catalogue entry. -/
structure AreaRange where
  min : ℚ
  max : ℚ
deriving DecidableEq, Repr

/-- `RoomPresetConfig`: one per-type entry of the preset catalogue. -/
structure RoomPresetConfig where
  type : String
  label : String
  area : AreaRange
  color : String
  presets : List SizePreset
deriving DecidableEq, Repr

/-- `RoomPresetsData`: the catalogue document (only the parts the engine
reads are modelled; `defaults.voidRatio` is consumed at load time and is
threaded through the engine as the explicit `voidRatio` parameter). -/
structure RoomPresetsData where
  roomTypes : List RoomPresetConfig
deriving DecidableEq, Repr

/-- `DOOR_W_MIN = 0.6`. -/
def DOOR_W_MIN : ℚ := 0.6

/-- `MIN_SIDE = 1`. -/
def MIN_SIDE : ℚ := 1

/-- `SHRINK_STEP = 0.95`. -/
def SHRINK_STEP : ℚ := 0.95

/-- One row of the built-in `ROOM_BASE` fallback table. -/
structure RoomBaseEntry where
  area : ℚ
  aspect : ℚ
  color : String
  label : String
deriving DecidableEq, Repr

/-- `ROOM_BASE`: the built-in per-type constant table, `none` for a type
outside the four known keys. -/
def ROOM_BASE (t : String) : Option RoomBaseEntry :=
  if t = "living" then some ⟨20, 1.25, "#b3e5fc", "Phòng khách"⟩
  else if t = "bed" then some ⟨14, 4 / 3.5, "#ffe082", "Phòng ngủ"⟩
  else if t = "kitchen" then some ⟨9, 1.0, "#c8e6c9", "Bếp"⟩
  else if t = "wc" then some ⟨4, 1.0, "#ffccbc", "WC"⟩
  else none

/-- The record `getRoomConfig` returns. -/
structure RoomConfig where
  area : ℚ
  aspect : ℚ
  color : String
  label : String
  minArea : ℚ
  maxArea : ℚ
  presets : List SizePreset
deriving DecidableEq, Repr

/-- `config.color.startsWith('#') ? config.color : '#' + config.color`. -/
def normalizeColor (c : String) : String :=
  if c.startsWith "#" then c else "#" ++ c

/-- `getRoomConfig(roomType, presetsData)`: catalogue entry when present
(note the hard-coded `aspect: 1.2`), otherwise the `ROOM_BASE` fallback,
otherwise the generic default (`area 10, aspect 1.2, "#f5f5f5"`, the raw
type string as label; `undefined * 2 || 20` yields `20` for `maxArea`). -/
def getRoomConfig (roomType : String) (presetsData : Option RoomPresetsData) : RoomConfig :=
  match presetsData with
  | some pd =>
    match pd.roomTypes.find? (fun rt => rt.type == roomType) with
    | some config =>
      ⟨config.area.min, 1.2, normalizeColor config.color, config.label,
        config.area.min, config.area.max, config.presets⟩
    | none =>
      match ROOM_BASE roomType with
      | some b => ⟨b.area, b.aspect, b.color, b.label, b.area, b.area * 2, []⟩
      | none => ⟨10, 1.2, "#f5f5f5", roomType, 10, 20, []⟩
  | none =>
    match ROOM_BASE roomType with
    | some b => ⟨b.area, b.aspect, b.color, b.label, b.area, b.area * 2, []⟩
    | none => ⟨10, 1.2, "#f5f5f5", roomType, 10, 20, []⟩

/-- One entry of the count list handed to the validator
(`{type, count?}`). -/
structure RoomCountReq where
  type : String
  count : Option ℕ
deriving DecidableEq, Repr

/-- Helper for `countRoomsByType`: bump the count of `t`, preserving
first-occurrence order (JavaScript object-key insertion order). -/
def bumpCount : List RoomCountReq → String → List RoomCountReq
  | [], t => [⟨t, some 1⟩]
  | e :: rest, t =>
    if e.type = t then ⟨e.type, some (e.count.getD 0 + 1)⟩ :: rest
    else e :: bumpCount rest t

/-- `countRoomsByType(rooms)`. -/
def countRoomsByType (rooms : List RoomReq) : List RoomCountReq :=
  rooms.foldl (fun acc r => bumpCount acc r.type) []

/-- `roomReq.count || 1`: JavaScript `||` turns both `undefined` and `0`
into `1`. -/
def countOrOne (c : Option ℕ) : ℕ :=
  match c with
  | some n => if n = 0 then 1 else n
  | none => 1

/-- `validateRoomAreaRequirements`: usable area from interior dimensions
and void ratio, required area as the sum of per-type minima, shortage,
validity and efficiency.  The catalogue snapshot is passed explicitly
(the source awaits the memoized `loadRoomPresets()`). -/
def validateRoomAreaRequirements (floorWidth floorHeight : ℚ)
    (rooms : List RoomCountReq) (voidRatio exteriorWallThickness : ℚ)
    (presetsData : Option RoomPresetsData) : RoomValidationResult :=
  let innerWidth := floorWidth - 2 * exteriorWallThickness
  let innerHeight := floorHeight - 2 * exteriorWallThickness
  let innerArea := max 0 (innerWidth * innerHeight)
  let usableArea := innerArea * (1 - voidRatio)
  let details := rooms.map (fun roomReq =>
    let count := countOrOne roomReq.count
    let roomConfig := getRoomConfig roomReq.type presetsData
    let minAreaPerRoom := roomConfig.minArea
    (⟨roomReq.type, roomConfig.label, count, minAreaPerRoom,
      minAreaPerRoom * count⟩ : ValidationDetail))
  let totalRequiredArea := (details.map (fun d => d.totalMinArea)).sum
  let shortage := max 0 (totalRequiredArea - usableArea)
  let efficiency := if usableArea > 0 then totalRequiredArea / usableArea * 100 else 0
  ⟨decide (shortage = 0), usableArea, totalRequiredArea, shortage, efficiency, details⟩

/-- `rectsOverlap(a, b)`: centered rectangles overlap unless they are
mutually exclusive along one axis; touching boundaries (`<=`/`>=`) count
as non-overlapping. -/
def rectsOverlap (a b : Rect) : Bool :=
  !(decide (a.x + a.w / 2 ≤ b.x - b.w / 2) ||
    decide (a.x - a.w / 2 ≥ b.x + b.w / 2) ||
    decide (a.y + a.h / 2 ≤ b.y - b.h / 2) ||
    decide (a.y - a.h / 2 ≥ b.y + b.h / 2))

/-- Round `x` to the nearest integer multiple of `2^k`, ties to the even
multiple — the rounding step of binary64 arithmetic at a fixed exponent. -/
def roundTiesEven (k : ℤ) (x : ℚ) : ℚ :=
  let u : ℚ := 2 ^ k
  let n : ℤ := ⌊x / u⌋
  if x / u - n < 1 / 2 then n * u
  else if 1 / 2 < x / u - n then (n + 1) * u
  else if Even n then n * u else (n + 1) * u

/-- IEEE-754 binary64 rounding (round to nearest, ties to even) of a real
value in the normal range: a value `x` with `2^e ≤ |x| < 2^(e+1)` is
rounded to a multiple of its unit in the last place, `2^(e-52)`.
JavaScript numbers are binary64, so this is the rounding the source's
arithmetic actually performs (overflow and subnormals do not arise for
the magnitudes considered here). -/
def fl (x : ℚ) : ℚ :=
  if x = 0 then 0 else roundTiesEven (Int.log 2 |x| - 52) x

/-- JavaScript `a + b`: binary64 addition with correct rounding. -/
def addD (a b : ℚ) : ℚ := fl (a + b)

/-- JavaScript `a - b`. -/
def subD (a b : ℚ) : ℚ := fl (a - b)

/-- JavaScript `a * b`. -/
def mulD (a b : ℚ) : ℚ := fl (a * b)

/-- JavaScript `a / b`. -/
def divD (a b : ℚ) : ℚ := fl (a / b)

/-- `rectsOverlap` as the source actually evaluates it in IEEE-double
arithmetic: every `+`, `-`, `/ 2` of the JavaScript expression is
correctly rounded (the comparisons themselves are exact). -/
def rectsOverlapD (a b : Rect) : Bool :=
  !(decide (addD a.x (divD a.w 2) ≤ subD b.x (divD b.w 2)) ||
    decide (subD a.x (divD a.w 2) ≥ addD b.x (divD b.w 2)) ||
    decide (addD a.y (divD a.h 2) ≤ subD b.y (divD b.h 2)) ||
    decide (subD a.y (divD a.h 2) ≥ addD b.y (divD b.h 2)))

/-- `mainDoorToLine(floorW, floorH, edge, offset, width)`. -/
def mainDoorToLine (floorW floorH : ℚ) (edge : Edge) (offset width : ℚ) : PlacedDoor :=
  let halfW := floorW / 2
  let halfH := floorH / 2
  let maxAlong := match edge with
    | .N | .S => floorW
    | .E | .W => floorH
  let clampedWidth := max DOOR_W_MIN (min width maxAlong)
  let clampedOffset := max 0 (min offset (maxAlong - clampedWidth))
  match edge with
  | .S =>
    let x := -halfW + clampedOffset + clampedWidth / 2
    ⟨x - clampedWidth / 2, -halfH, x + clampedWidth / 2, -halfH⟩
  | .N =>
    let x := -halfW + clampedOffset + clampedWidth / 2
    ⟨x - clampedWidth / 2, halfH, x + clampedWidth / 2, halfH⟩
  | .E =>
    let y := -halfH + clampedOffset + clampedWidth / 2
    ⟨halfW, y - clampedWidth / 2, halfW, y + clampedWidth / 2⟩
  | .W =>
    let y := -halfH + clampedOffset + clampedWidth / 2
    ⟨-halfW, y - clampedWidth / 2, -halfW, y + clampedWidth / 2⟩

/-- The four usable-rectangle corners. -/
inductive Corner
  | NW
  | NE
  | SW
  | SE
deriving DecidableEq, Repr

/-- `idealCornerCenterUsable(usableW, usableH, corner, w, h)`. -/
def idealCornerCenterUsable (usableW usableH : ℚ) (corner : Corner) (w h : ℚ) : ℚ × ℚ :=
  let halfW := usableW / 2
  let halfH := usableH / 2
  match corner with
  | .NW => (-halfW + w / 2, halfH - h / 2)
  | .NE => (halfW - w / 2, halfH - h / 2)
  | .SW => (-halfW + w / 2, -halfH + h / 2)
  | .SE => (halfW - w / 2, -halfH + h / 2)

/-- Copy the requesting room's door specs verbatim onto a placed room
(`if (!src?.doors?.length) continue; p.rawDoors = src.doors.map(...)`). -/
def attachRawDoors (rooms : List RoomReq) (p : PlacedRoom) : PlacedRoom :=
  match rooms.find? (fun r => r.id == p.id) with
  | some src =>
    if src.doors.isEmpty then p
    else { p with rawDoors := some (src.doors.map (fun d => ⟨d.side, d.width, d.offsetRatio⟩)) }
  | none => p

/-- `tryFixedLayout(input)`: the hand-authored 20×5 west-door template.
The exact-count check (`roomCounts.bed === 2 && ...`) is expressed by
matching the per-type filtered lists against the required lengths. -/
def tryFixedLayout (input : FloorInput) (presetsData : Option RoomPresetsData) :
    Option LayoutResult :=
  let floorW := input.floor.width
  let floorH := input.floor.height
  let mainDoor := input.floor.mainDoor
  let rooms := input.rooms
  let exteriorWallThickness := exteriorThicknessOr input 0.15
  if floorW = 20 ∧ floorH = 5 ∧ mainDoor.edge = Edge.W then
    match rooms.filter (fun r => r.type == "living"),
          rooms.filter (fun r => r.type == "kitchen"),
          rooms.filter (fun r => r.type == "bed"),
          rooms.filter (fun r => r.type == "wc") with
    | [living0], [kitchen0], [bed0, bed1], [wc0, wc1] =>
      let offsetX := exteriorWallThickness
      let placed : List PlacedRoom :=
        [⟨living0.id, "living", -7.0 + offsetX, 0, 6.0, 5.0 - 2 * exteriorWallThickness,
            (getRoomConfig "living" presetsData).color,
            (getRoomConfig "living" presetsData).label, none⟩,
         ⟨kitchen0.id, "kitchen", 8.25 + offsetX, 0.75, 3.5, 3.5,
            (getRoomConfig "kitchen" presetsData).color,
            (getRoomConfig "kitchen" presetsData).label, none⟩,
         ⟨bed0.id, "bed", -1.5 + offsetX, -0.75, 5.0, 3.5,
            (getRoomConfig "bed" presetsData).color,
            (getRoomConfig "bed" presetsData).label ++ " 1", none⟩,
         ⟨bed1.id, "bed", 5.0 + offsetX, -0.75, 3.0, 3.5,
            (getRoomConfig "bed" presetsData).color,
            (getRoomConfig "bed" presetsData).label ++ " 2", none⟩,
         ⟨wc0.id, "wc", 2.25 + offsetX, -0.75, 2.5, 3.5,
            (getRoomConfig "wc" presetsData).color,
            (getRoomConfig "wc" presetsData).label ++ " 1", none⟩,
         ⟨wc1.id, "wc", 8.25 + offsetX, -1.75, 3.5, 1.5,
            (getRoomConfig "wc" presetsData).color,
            (getRoomConfig "wc" presetsData).label ++ " 2", none⟩]
      some ⟨floorW, floorH,
        mainDoorToLine floorW floorH mainDoor.edge mainDoor.offset mainDoor.width,
        placed.map (attachRawDoors rooms), [], none⟩
    | _, _, _, _ => none
  else none

/-- A sized room after the heuristic sizing step. -/
structure SizedRoom where
  id : String
  type : String
  w : ℚ
  h : ℚ
  area : ℚ
  color : String
  label : String
deriving DecidableEq, Repr

/-- `expanded.reduce((s, r) => s + roomConfig.area, 0) || 1`: the summed
preset target areas, with `0` replaced by `1`. -/
def desiredSumOf (presetsData : Option RoomPresetsData) (rooms : List RoomReq) : ℚ :=
  let s := rooms.foldl (fun s r => s + (getRoomConfig r.type presetsData).area) 0
  if s = 0 then 1 else s

/-- `scale = Math.min(1, usableArea / desiredSum)`. -/
def sizingScale (presetsData : Option RoomPresetsData) (usableArea : ℚ)
    (rooms : List RoomReq) : ℚ :=
  min 1 (usableArea / desiredSumOf presetsData rooms)

/-- One room of the sizing step: the working area is clamped up to
`MIN_SIDE²`, the width comes from the aspect ratio via `sqrtFn`, and each
dimension exceeding the usable one is clamped with the other recomputed
from the area. -/
def sizedRoom (sqrtFn : ℚ → ℚ) (presetsData : Option RoomPresetsData)
    (usableW usableH scale : ℚ) (r : RoomReq) : SizedRoom :=
  let roomConfig := getRoomConfig r.type presetsData
  let area := max (MIN_SIDE * MIN_SIDE) (roomConfig.area * scale)
  let w0 := sqrtFn (area * roomConfig.aspect)
  let h0 := max MIN_SIDE (area / w0)
  let w1 := if w0 > usableW then max MIN_SIDE usableW else w0
  let h1 := if w0 > usableW then max MIN_SIDE (area / w1) else h0
  let h2 := if h1 > usableH then max MIN_SIDE usableH else h1
  let w2 := if h1 > usableH then max MIN_SIDE (area / h2) else w1
  ⟨r.id, r.type, w2, h2, area, roomConfig.color, roomConfig.label⟩

/-- The rectangle of a placed room. -/
def roomRect (p : PlacedRoom) : Rect := ⟨p.x, p.y, p.w, p.h⟩

/-- `placed.some(p => rectsOverlap(cand, p))`. -/
def overlapsPlaced (placed : List PlacedRoom) (cand : Rect) : Bool :=
  placed.any (fun p => rectsOverlap cand (roomRect p))

/-- `(livingRect && rectsOverlap(cand, livingRect)) || overlapsPlaced(cand)`. -/
def clashAt (livingRect : Option Rect) (placed : List PlacedRoom) (cand : Rect) : Bool :=
  (match livingRect with
   | some lr => rectsOverlap cand lr
   | none => false) || overlapsPlaced placed cand

/-- The record pushed onto `placed` on a successful attempt (color and
label re-resolved via `getRoomConfig`). -/
def mkPlaced (presetsData : Option RoomPresetsData) (room : SizedRoom)
    (x y w h : ℚ) : PlacedRoom :=
  let roomConfig := getRoomConfig room.type presetsData
  ⟨room.id, room.type, x, y, w, h, roomConfig.color, roomConfig.label, none⟩

/-- The body of `tryPlaceCorner`'s `for (k = 0; k < 25; k++)` loop: test the
corner-anchored candidate at the current dimensions; on a clash shrink both
dimensions by `SHRINK_STEP` while both still exceed `MIN_SIDE`, otherwise
give up. -/
def tryPlaceCornerGo (presetsData : Option RoomPresetsData) (livingRect : Option Rect)
    (placed : List PlacedRoom) (usableW usableH : ℚ) (room : SizedRoom)
    (corner : Corner) : ℕ → ℚ → ℚ → Option PlacedRoom
  | 0, _, _ => none
  | fuel + 1, w, h =>
    let tgt := idealCornerCenterUsable usableW usableH corner w h
    let cand : Rect := ⟨tgt.1, tgt.2, w, h⟩
    if clashAt livingRect placed cand then
      if MIN_SIDE < w ∧ MIN_SIDE < h then
        tryPlaceCornerGo presetsData livingRect placed usableW usableH room corner
          fuel (w * SHRINK_STEP) (h * SHRINK_STEP)
      else none
    else some (mkPlaced presetsData room cand.x cand.y w h)

/-- `tryPlaceCorner(room, corner)`: up to 25 attempts starting from the
sized dimensions. -/
def tryPlaceCorner (presetsData : Option RoomPresetsData) (livingRect : Option Rect)
    (placed : List PlacedRoom) (usableW usableH : ℚ) (room : SizedRoom)
    (corner : Corner) : Option PlacedRoom :=
  tryPlaceCornerGo presetsData livingRect placed usableW usableH room corner
    25 room.w room.h

/-- The attempt counter of the same loop: how many candidate positions are
tested before `tryPlaceCornerGo` returns. -/
def cornerAttempts (livingRect : Option Rect) (placed : List PlacedRoom)
    (usableW usableH : ℚ) (corner : Corner) : ℕ → ℚ → ℚ → ℕ
  | 0, _, _ => 0
  | fuel + 1, w, h =>
    let tgt := idealCornerCenterUsable usableW usableH corner w h
    let cand : Rect := ⟨tgt.1, tgt.2, w, h⟩
    if clashAt livingRect placed cand then
      if MIN_SIDE < w ∧ MIN_SIDE < h then
        1 + cornerAttempts livingRect placed usableW usableH corner
          fuel (w * SHRINK_STEP) (h * SHRINK_STEP)
      else 1
    else 1

/-- Scan a candidate-center list and place the room (at its unshrunk size)
at the first clash-free position; shared shape of `tryPlaceAlongWall` and
`tryPlaceOnGrid`. -/
def firstFit (presetsData : Option RoomPresetsData) (livingRect : Option Rect)
    (placed : List PlacedRoom) (room : SizedRoom) :
    List (ℚ × ℚ) → Option PlacedRoom
  | [] => none
  | c :: rest =>
    let cand : Rect := ⟨c.1, c.2, room.w, room.h⟩
    if clashAt livingRect placed cand then
      firstFit presetsData livingRect placed room rest
    else some (mkPlaced presetsData room c.1 c.2 room.w room.h)

/-- The four wall-flush candidate centers of `tryPlaceAlongWall`, in source
order W, E, S, N. -/
def wallCandidates (halfUsableW halfUsableH : ℚ) (room : SizedRoom) : List (ℚ × ℚ) :=
  [(-halfUsableW + room.w / 2, 0), (halfUsableW - room.w / 2, 0),
   (0, -halfUsableH + room.h / 2), (0, halfUsableH - room.h / 2)]

/-- `tryPlaceAlongWall(room)`. -/
def tryPlaceAlongWall (presetsData : Option RoomPresetsData) (livingRect : Option Rect)
    (placed : List PlacedRoom) (halfUsableW halfUsableH : ℚ) (room : SizedRoom) :
    Option PlacedRoom :=
  firstFit presetsData livingRect placed room (wallCandidates halfUsableW halfUsableH room)

/-- Number of iterations of a `for (v = lo; v <= hi; v += 1)` loop. -/
def scanCount (lo hi : ℚ) : ℕ :=
  if hi < lo then 0 else (⌊hi - lo⌋).toNat + 1

/-- The grid candidate centers of `tryPlaceOnGrid` with the fixed step
`1.0` used by its only caller: row-major, y outer / x inner, both from the
minimum corner. -/
def gridCandidates (halfUsableW halfUsableH : ℚ) (room : SizedRoom) : List (ℚ × ℚ) :=
  let yLo := -halfUsableH + room.h / 2
  let yHi := halfUsableH - room.h / 2
  let xLo := -halfUsableW + room.w / 2
  let xHi := halfUsableW - room.w / 2
  (List.range (scanCount yLo yHi)).flatMap (fun j =>
    (List.range (scanCount xLo xHi)).map (fun i => (xLo + i, yLo + j)))

/-- `tryPlaceOnGrid(room, 1.0)`. -/
def tryPlaceOnGrid (presetsData : Option RoomPresetsData) (livingRect : Option Rect)
    (placed : List PlacedRoom) (halfUsableW halfUsableH : ℚ) (room : SizedRoom) :
    Option PlacedRoom :=
  firstFit presetsData livingRect placed room (gridCandidates halfUsableW halfUsableH room)

/-- `prio(t)`: bed 0, kitchen 1, wc 2, anything else 3. -/
def prio (t : String) : ℕ :=
  if t = "bed" then 0 else if t = "kitchen" then 1 else if t = "wc" then 2 else 3

/-- `cornerOrderByDoor`. -/
def cornerOrderByDoor : Edge → List Corner
  | .S => [.NW, .NE, .SW, .SE]
  | .N => [.SW, .SE, .NW, .NE]
  | .E => [.NW, .SW, .NE, .SE]
  | .W => [.NE, .SE, .NW, .SW]

/-- One iteration of the placement loop: corners in door order, then
walls, then the grid. -/
def placeOne (presetsData : Option RoomPresetsData) (livingRect : Option Rect)
    (usableW usableH : ℚ) (cornerOrder : List Corner) (placed : List PlacedRoom)
    (r : SizedRoom) : Option PlacedRoom :=
  match cornerOrder.findSome? (fun corner =>
      tryPlaceCorner presetsData livingRect placed usableW usableH r corner) with
  | some p => some p
  | none =>
    match tryPlaceAlongWall presetsData livingRect placed (usableW / 2) (usableH / 2) r with
    | some p => some p
    | none => tryPlaceOnGrid presetsData livingRect placed (usableW / 2) (usableH / 2) r

/-- The `for (const r of othersSorted)` loop: place each room or append a
"cannot place" warning for it. -/
def placeRooms (presetsData : Option RoomPresetsData) (livingRect : Option Rect)
    (usableW usableH : ℚ) (cornerOrder : List Corner) :
    List SizedRoom → List PlacedRoom → List Warning → List PlacedRoom × List Warning
  | [], placed, warnings => (placed, warnings)
  | r :: rest, placed, warnings =>
    match placeOne presetsData livingRect usableW usableH cornerOrder placed r with
    | some p =>
      placeRooms presetsData livingRect usableW usableH cornerOrder rest
        (placed ++ [p]) warnings
    | none =>
      placeRooms presetsData livingRect usableW usableH cornerOrder rest placed
        (warnings ++ [Warning.cannotPlace (getRoomConfig r.type presetsData).label])

/-- The living-room seeding position: flush against the interior wall the
main door opens onto, centered on the door's projected position, clamped
inside the usable rectangle. -/
def livingPosition (edge : Edge) (halfUsableW halfUsableH : ℚ) (livingBase : SizedRoom)
    (mdCenter : ℚ × ℚ) : ℚ × ℚ :=
  match edge with
  | .S => (max (-halfUsableW + livingBase.w / 2)
      (min (halfUsableW - livingBase.w / 2) mdCenter.1), -halfUsableH + livingBase.h / 2)
  | .N => (max (-halfUsableW + livingBase.w / 2)
      (min (halfUsableW - livingBase.w / 2) mdCenter.1), halfUsableH - livingBase.h / 2)
  | .E => (halfUsableW - livingBase.w / 2, max (-halfUsableH + livingBase.h / 2)
      (min (halfUsableH - livingBase.h / 2) mdCenter.2))
  | .W => (-halfUsableW + livingBase.w / 2, max (-halfUsableH + livingBase.h / 2)
      (min (halfUsableH - livingBase.h / 2) mdCenter.2))

/-- The two advisory efficiency warnings pushed before placement. -/
def efficiencyWarnings (validation : Option RoomValidationResult) : List Warning :=
  match validation with
  | some v =>
    (if v.efficiency < 60 then [Warning.lowEfficiency v.efficiency] else []) ++
    (if v.efficiency > 90 then [Warning.highEfficiency v.efficiency] else [])
  | none => []

/-- The placement phase of the heuristic engine, over an already-sized
room list: seed the living room against the main door's wall, then place
the remaining rooms in priority order via corner/wall/grid attempts. -/
def heuristicPlace (presetsData : Option RoomPresetsData) (edge : Edge)
    (usableW usableH : ℚ) (mdCenter : ℚ × ℚ) (sized : List SizedRoom)
    (warnings0 : List Warning) : List PlacedRoom × List Warning :=
  match sized.find? (fun r => r.type == "living") with
  | some livingBase =>
    let pos := livingPosition edge (usableW / 2) (usableH / 2) livingBase mdCenter
    let livingRect : Rect := ⟨pos.1, pos.2, livingBase.w, livingBase.h⟩
    let livingPlaced : PlacedRoom := ⟨livingBase.id, "living", pos.1, pos.2,
      livingBase.w, livingBase.h, livingBase.color, livingBase.label, none⟩
    let others := sized.filter (fun r => r.id != livingBase.id)
    let othersSorted := others.mergeSort (fun a b => prio a.type ≤ prio b.type)
    placeRooms presetsData (some livingRect) usableW usableH
      (cornerOrderByDoor edge) othersSorted [livingPlaced] warnings0
  | none =>
    placeRooms presetsData none usableW usableH (cornerOrderByDoor edge)
      (sized.mergeSort (fun a b => prio a.type ≤ prio b.type)) [] warnings0

/-- Assemble the heuristic result: attach raw doors to the placed rooms
and append the wall-thickness and usable-area warnings. -/
def finishLayout (input : FloorInput) (mdLine : PlacedDoor)
    (exteriorWallThickness usableArea desired : ℚ)
    (res : List PlacedRoom × List Warning)
    (validation : Option RoomValidationResult) : LayoutResult :=
  let warnings := res.2 ++
    (if exteriorWallThickness > 0.3 then [Warning.thickWall exteriorWallThickness] else []) ++
    (if usableArea < desired * 0.7 then [Warning.insufficientArea] else [])
  ⟨input.floor.width, input.floor.height, mdLine,
    res.1.map (attachRawDoors input.rooms), warnings, validation⟩

/-- The heuristic placement engine: the body of `generateLayout` after the
fixed-template attempt fails. -/
def generateHeuristic (sqrtFn : ℚ → ℚ) (voidRatio : ℚ)
    (presetsData : Option RoomPresetsData) (input : FloorInput)
    (validation : Option RoomValidationResult) : LayoutResult :=
  let floorW := input.floor.width
  let floorH := input.floor.height
  let mainDoor := input.floor.mainDoor
  let exteriorWallThickness := exteriorThicknessOr input 0.2
  let usableW := floorW - 2 * exteriorWallThickness
  let usableH := floorH - 2 * exteriorWallThickness
  let usableArea := usableW * usableH * (1 - voidRatio)
  let desired := desiredSumOf presetsData input.rooms
  let scale := sizingScale presetsData usableArea input.rooms
  let sized := input.rooms.map (sizedRoom sqrtFn presetsData usableW usableH scale)
  let mdLine := mainDoorToLine floorW floorH mainDoor.edge mainDoor.offset mainDoor.width
  let mdCenter := ((mdLine.x1 + mdLine.x2) / 2, (mdLine.y1 + mdLine.y2) / 2)
  let res := heuristicPlace presetsData mainDoor.edge usableW usableH mdCenter
    sized (efficiencyWarnings validation)
  finishLayout input mdLine exteriorWallThickness usableArea desired res validation

/-- `generateLayout(input, skipValidation)`: compute the advisory
validation verdict, try the fixed template, and otherwise fall through to
the heuristic engine. -/
def generateLayout (sqrtFn : ℚ → ℚ) (voidRatio : ℚ)
    (presetsData : Option RoomPresetsData) (input : FloorInput)
    (skipValidation : Bool) : LayoutResult :=
  let validation : Option RoomValidationResult :=
    if skipValidation then none
    else some (validateRoomAreaRequirements input.floor.width input.floor.height
      (countRoomsByType input.rooms) voidRatio (exteriorThicknessOr input 0.2) presetsData)
  match tryFixedLayout input presetsData with
  | some fixed => { fixed with validation := validation }
  | none => generateHeuristic sqrtFn voidRatio presetsData input validation

/-- Number of "cannot place" (dropped-room) warnings in a warning list. -/
def countCannotPlace (ws : List Warning) : ℕ :=
  ws.countP (fun w => match w with
    | Warning.cannotPlace _ => true
    | _ => false)

/-- The exact fixed-template input of the spec's template-precedence test:
floor 20×5, main door on edge W, rooms 2 bed + 2 wc + 1 kitchen + 1 living,
no walls override. -/
def templateInput : FloorInput :=
  ⟨⟨20, 5, ⟨Edge.W, 1, 1⟩⟩,
   [⟨"r1", "living", []⟩, ⟨"r2", "bed", []⟩, ⟨"r3", "bed", []⟩,
    ⟨"r4", "wc", []⟩, ⟨"r5", "wc", []⟩, ⟨"r6", "kitchen", []⟩], none⟩

/-- The same floor and door edge with 1 bed instead of 2: the template
multiset does not match. -/
def mismatchInput : FloorInput :=
  ⟨⟨20, 5, ⟨Edge.W, 1, 1⟩⟩,
   [⟨"r1", "living", []⟩, ⟨"r2", "bed", []⟩,
    ⟨"r4", "wc", []⟩, ⟨"r5", "wc", []⟩, ⟨"r6", "kitchen", []⟩], none⟩

/-- The room centers the fixed template emits for `templateInput`
(literal coordinates plus the `offsetX = 0.15` shift). -/
def templateCenters : List (ℚ × ℚ) :=
  [(-7.0 + 0.15, 0), (8.25 + 0.15, 0.75), (-1.5 + 0.15, -0.75),
   (5.0 + 0.15, -0.75), (2.25 + 0.15, -0.75), (8.25 + 0.15, -1.75)]

/-! ### Helper lemmas about the overlap test -/

theorem rectsOverlap_eq_false_iff (a b : Rect) :
    rectsOverlap a b = false ↔
      a.x + a.w / 2 ≤ b.x - b.w / 2 ∨ b.x + b.w / 2 ≤ a.x - a.w / 2 ∨
      a.y + a.h / 2 ≤ b.y - b.h / 2 ∨ b.y + b.h / 2 ≤ a.y - a.h / 2 := by
  simp only [rectsOverlap, Bool.not_eq_false', Bool.or_eq_true, decide_eq_true_eq,
    ge_iff_le]
  tauto

theorem rectsOverlap_false_symm {a b : Rect} (h : rectsOverlap a b = false) :
    rectsOverlap b a = false := by
  rw [rectsOverlap_eq_false_iff] at h ⊢
  tauto

theorem rectsOverlap_eq_true_iff (a b : Rect) :
    rectsOverlap a b = true ↔
      b.x - b.w / 2 < a.x + a.w / 2 ∧ a.x - a.w / 2 < b.x + b.w / 2 ∧
      b.y - b.h / 2 < a.y + a.h / 2 ∧ a.y - a.h / 2 < b.y + b.h / 2 := by
  simp only [rectsOverlap, Bool.not_eq_true', Bool.or_eq_false_iff,
    decide_eq_false_iff_not, not_le, ge_iff_le]
  tauto

/-! ### Evaluation lemmas for binary64 rounding -/

theorem Int_log2_eq {x : ℚ} {e : ℤ} (h0 : 0 < x) (h1 : (2 : ℚ) ^ e ≤ x)
    (h2 : x < 2 ^ (e + 1)) : Int.log 2 x = e := by
  have hl1 : ((2 : ℕ) : ℚ) ^ Int.log 2 x ≤ x :=
    @Int.zpow_log_le_self ℚ _ _ 2 x one_lt_two h0
  have hl2 : x < ((2 : ℕ) : ℚ) ^ (Int.log 2 x + 1) :=
    @Int.lt_zpow_succ_log_self ℚ _ _ 2 one_lt_two x
  push_cast at hl1 hl2
  by_contra hne
  rcases lt_or_gt_of_ne hne with hlt | hgt
  · have hle : Int.log 2 x + 1 ≤ e := hlt
    have := zpow_le_zpow_right₀ (by norm_num : (1 : ℚ) ≤ 2) hle
    linarith
  · have hle : e + 1 ≤ Int.log 2 x := hgt
    have := zpow_le_zpow_right₀ (by norm_num : (1 : ℚ) ≤ 2) hle
    linarith

theorem roundTiesEven_eq_down (k : ℤ) (x : ℚ) (n : ℤ)
    (h1 : (n : ℚ) ≤ x / 2 ^ k) (h2 : x / 2 ^ k - n < 1 / 2) :
    roundTiesEven k x = n * 2 ^ k := by
  have hfl : ⌊x / (2 : ℚ) ^ k⌋ = n := Int.floor_eq_iff.mpr ⟨h1, by push_cast; linarith⟩
  simp only [roundTiesEven, hfl]
  rw [if_pos h2]

theorem roundTiesEven_eq_up (k : ℤ) (x : ℚ) (n : ℤ)
    (h1 : (1 : ℚ) / 2 < x / 2 ^ k - n) (h2 : x / 2 ^ k < (n : ℚ) + 1) :
    roundTiesEven k x = (n + 1) * 2 ^ k := by
  have hfl : ⌊x / (2 : ℚ) ^ k⌋ = n := Int.floor_eq_iff.mpr ⟨by linarith, by push_cast; linarith⟩
  simp only [roundTiesEven, hfl]
  rw [if_neg (by linarith), if_pos h1]

theorem fl_eq_down (x : ℚ) (e n : ℤ) (hx : x ≠ 0)
    (h1 : (2 : ℚ) ^ e ≤ |x|) (h2 : |x| < 2 ^ (e + 1))
    (h3 : (n : ℚ) ≤ x / 2 ^ (e - 52)) (h4 : x / 2 ^ (e - 52) - n < 1 / 2) :
    fl x = n * 2 ^ (e - 52) := by
  unfold fl
  rw [if_neg hx, Int_log2_eq (abs_pos.mpr hx) h1 h2]
  exact roundTiesEven_eq_down _ _ _ h3 h4

theorem fl_eq_up (x : ℚ) (e n : ℤ) (hx : x ≠ 0)
    (h1 : (2 : ℚ) ^ e ≤ |x|) (h2 : |x| < 2 ^ (e + 1))
    (h3 : (1 : ℚ) / 2 < x / 2 ^ (e - 52) - n) (h4 : x / 2 ^ (e - 52) < (n : ℚ) + 1) :
    fl x = (n + 1) * 2 ^ (e - 52) := by
  unfold fl
  rw [if_neg hx, Int_log2_eq (abs_pos.mpr hx) h1 h2]
  exact roundTiesEven_eq_up _ _ _ h3 h4

theorem fl_eq_exact (x : ℚ) (e n : ℤ) (hx : x ≠ 0)
    (h1 : (2 : ℚ) ^ e ≤ |x|) (h2 : |x| < 2 ^ (e + 1))
    (hn : x = n * 2 ^ (e - 52)) :
    fl x = x := by
  have hu : ((2 : ℚ) ^ (e - 52)) ≠ 0 := by positivity
  have hq : x / 2 ^ (e - 52) = (n : ℚ) := by
    rw [hn, mul_div_cancel_right₀ _ hu]
  have hd := fl_eq_down x e n hx h1 h2 (by rw [hq]) (by rw [hq]; norm_num)
  rw [hd, ← hn]

/-! ### C7 -/

/-- C7: with the preset catalogue unavailable, `getRoomConfig` returns the
built-in constants for each of the four known types (with `minArea` equal
to the built-in area and `maxArea` twice it), and the generic default
(area 10, aspect 1.2, neutral color, the raw type string as label) for any
type outside the built-in table. -/
theorem c7_catalogue_fallback :
    getRoomConfig "living" none = ⟨20, 1.25, "#b3e5fc", "Phòng khách", 20, 40, []⟩ ∧
    getRoomConfig "bed" none = ⟨14, 4 / 3.5, "#ffe082", "Phòng ngủ", 14, 28, []⟩ ∧
    getRoomConfig "kitchen" none = ⟨9, 1, "#c8e6c9", "Bếp", 9, 18, []⟩ ∧
    getRoomConfig "wc" none = ⟨4, 1, "#ffccbc", "WC", 4, 8, []⟩ ∧
    ∀ t : String, t ≠ "living" → t ≠ "bed" → t ≠ "kitchen" → t ≠ "wc" →
      getRoomConfig t none = ⟨10, 1.2, "#f5f5f5", t, 10, 20, []⟩ := by
  refine ⟨?_, ?_, ?_, ?_, fun t h1 h2 h3 h4 => ?_⟩ <;>
    simp [getRoomConfig, ROOM_BASE, *] <;> norm_num

/-- Witness for C7: the unknown type "garage" resolves to the generic
default. -/
theorem c7_catalogue_fallback_witness :
    getRoomConfig "garage" none = ⟨10, 1.2, "#f5f5f5", "garage", 10, 20, []⟩ :=
  c7_catalogue_fallback.2.2.2.2 "garage" (by decide) (by decide) (by decide) (by decide)

/-! ### C6 -/

theorem countOrOne_cast_eq_getD {c : Option ℕ} (h : c ≠ some 0) :
    countOrOne c = c.getD 1 := by
  cases c with
  | none => rfl
  | some n =>
    cases n with
    | zero => exact absurd rfl h
    | succ m => rfl

/-- C6 (amended): the validator returns
`usableArea = max(0, innerW·innerH)·(1−voidRatio)` — the *product* of the
interior dimensions is floored at 0, so two negative interior dimensions
still yield a positive usable area — and, provided no requested count is
the explicit number 0 (JavaScript `count || 1` turns 0 into 1),
`requiredMinArea = Σ (count ?? 1)·minAreaForType`,
`shortage = max(0, required − usable)`, `isValid ↔ shortage = 0`, and
`efficiency = required/usable·100` when `usable > 0`, else `0`. -/
theorem c6_validator_arithmetic (floorWidth floorHeight voidRatio t : ℚ)
    (rooms : List RoomCountReq) (presetsData : Option RoomPresetsData)
    (hc : ∀ r ∈ rooms, r.count ≠ some 0) :
    (validateRoomAreaRequirements floorWidth floorHeight rooms voidRatio t
        presetsData).usableArea =
      max 0 ((floorWidth - 2 * t) * (floorHeight - 2 * t)) * (1 - voidRatio) ∧
    (validateRoomAreaRequirements floorWidth floorHeight rooms voidRatio t
        presetsData).requiredMinArea =
      (rooms.map (fun r => (getRoomConfig r.type presetsData).minArea *
        ((r.count.getD 1 : ℕ) : ℚ))).sum ∧
    (validateRoomAreaRequirements floorWidth floorHeight rooms voidRatio t
        presetsData).shortage =
      max 0 ((validateRoomAreaRequirements floorWidth floorHeight rooms voidRatio t
        presetsData).requiredMinArea -
        (validateRoomAreaRequirements floorWidth floorHeight rooms voidRatio t
        presetsData).usableArea) ∧
    ((validateRoomAreaRequirements floorWidth floorHeight rooms voidRatio t
        presetsData).isValid = true ↔
      (validateRoomAreaRequirements floorWidth floorHeight rooms voidRatio t
        presetsData).shortage = 0) ∧
    (0 < (validateRoomAreaRequirements floorWidth floorHeight rooms voidRatio t
        presetsData).usableArea →
      (validateRoomAreaRequirements floorWidth floorHeight rooms voidRatio t
        presetsData).efficiency =
        (validateRoomAreaRequirements floorWidth floorHeight rooms voidRatio t
          presetsData).requiredMinArea /
        (validateRoomAreaRequirements floorWidth floorHeight rooms voidRatio t
          presetsData).usableArea * 100) ∧
    ((validateRoomAreaRequirements floorWidth floorHeight rooms voidRatio t
        presetsData).usableArea ≤ 0 →
      (validateRoomAreaRequirements floorWidth floorHeight rooms voidRatio t
        presetsData).efficiency = 0) := by
  refine ⟨rfl, ?_, rfl, ?_, ?_, ?_⟩
  · simp only [validateRoomAreaRequirements, List.map_map]
    congr 1
    refine List.map_congr_left (fun r hr => ?_)
    simp only [Function.comp_apply]
    rw [countOrOne_cast_eq_getD (hc r hr)]
  · simp only [validateRoomAreaRequirements, decide_eq_true_eq]
  · intro h
    simp only [validateRoomAreaRequirements] at h ⊢
    rw [if_pos h]
  · intro h
    simp only [validateRoomAreaRequirements] at h ⊢
    rw [if_neg (not_lt.mpr h)]

/-- Witness for C6 at concrete inputs (floor 10×10, thickness 0.2, void
ratio 0.15, 1 living + 2 bed, no catalogue). -/
theorem c6_validator_arithmetic_witness :
    (validateRoomAreaRequirements 10 10 [⟨"living", some 1⟩, ⟨"bed", some 2⟩]
        0.15 0.2 none).usableArea =
      max 0 ((10 - 2 * 0.2) * (10 - 2 * 0.2)) * (1 - 0.15) ∧
    (validateRoomAreaRequirements 10 10 [⟨"living", some 1⟩, ⟨"bed", some 2⟩]
        0.15 0.2 none).requiredMinArea = 48 := by
  have h := c6_validator_arithmetic 10 10 0.15 0.2
    [⟨"living", some 1⟩, ⟨"bed", some 2⟩] none (by decide)
  refine ⟨h.1, h.2.1.trans ?_⟩
  simp [getRoomConfig, ROOM_BASE]
  norm_num

/-- C6 counterexample: floor 0.1×0.1 with exterior thickness 0.2 has both
interior dimensions negative (−0.3), yet the validator's usable area is
`0.09·0.85 = 0.0765 ≠ 0` because only the *product* is floored at 0. -/
theorem c6_counterexample :
    (0.1 : ℚ) - 2 * 0.2 < 0 ∧
    (validateRoomAreaRequirements 0.1 0.1 [] 0.15 0.2 none).usableArea = 153 / 2000 ∧
    ((153 : ℚ) / 2000 ≠ 0) := by
  refine ⟨by norm_num, ?_, by norm_num⟩
  show (max 0 (((0.1 : ℚ) - 2 * 0.2) * ((0.1 : ℚ) - 2 * 0.2)) * (1 - 0.15) : ℚ) =
    153 / 2000
  rw [show ((0.1 : ℚ) - 2 * 0.2) * ((0.1 : ℚ) - 2 * 0.2) = 9 / 100 by norm_num,
    max_eq_right (by norm_num : (0 : ℚ) ≤ 9 / 100)]
  norm_num

/-! ### C4 -/

theorem doorClamp_facts (maxAlong offset width : ℚ) :
    0 ≤ max 0 (min offset (maxAlong - max DOOR_W_MIN (min width maxAlong))) ∧
    DOOR_W_MIN ≤ max DOOR_W_MIN (min width maxAlong) ∧
    (DOOR_W_MIN ≤ maxAlong →
      max 0 (min offset (maxAlong - max DOOR_W_MIN (min width maxAlong))) +
        max DOOR_W_MIN (min width maxAlong) ≤ maxAlong) := by
  refine ⟨le_max_left 0 _, le_max_left _ _, fun h => ?_⟩
  have h3 : max DOOR_W_MIN (min width maxAlong) ≤ maxAlong :=
    max_le h (min_le_right _ _)
  have h4 : max 0 (min offset (maxAlong - max DOOR_W_MIN (min width maxAlong))) ≤
      maxAlong - max DOOR_W_MIN (min width maxAlong) :=
    max_le (by linarith) (min_le_right _ _)
  linarith

/-- C4 (amended): `mainDoorToLine` always returns a segment lying exactly
on the chosen floor boundary whose width is the clamped door width, hence
at least `DOOR_W_MIN = 0.6`; the segment lies within the edge's extent
(`[-floorW/2, floorW/2]` for N/S, `[-floorH/2, floorH/2]` for E/W)
*provided the edge is at least 0.6 m long* — for a shorter edge the width
is still forced up to 0.6 m (not down to the edge length) and the segment
overshoots the boundary extent. -/
theorem c4_door_clamping (floorW floorH offset width : ℚ) (edge : Edge) :
    ((edge = Edge.N →
        (mainDoorToLine floorW floorH edge offset width).y1 = floorH / 2 ∧
        (mainDoorToLine floorW floorH edge offset width).y2 = floorH / 2) ∧
     (edge = Edge.S →
        (mainDoorToLine floorW floorH edge offset width).y1 = -(floorH / 2) ∧
        (mainDoorToLine floorW floorH edge offset width).y2 = -(floorH / 2)) ∧
     (edge = Edge.E →
        (mainDoorToLine floorW floorH edge offset width).x1 = floorW / 2 ∧
        (mainDoorToLine floorW floorH edge offset width).x2 = floorW / 2) ∧
     (edge = Edge.W →
        (mainDoorToLine floorW floorH edge offset width).x1 = -(floorW / 2) ∧
        (mainDoorToLine floorW floorH edge offset width).x2 = -(floorW / 2))) ∧
    ((edge = Edge.N ∨ edge = Edge.S →
        DOOR_W_MIN ≤ (mainDoorToLine floorW floorH edge offset width).x2 -
          (mainDoorToLine floorW floorH edge offset width).x1 ∧
        (DOOR_W_MIN ≤ floorW →
          -(floorW / 2) ≤ (mainDoorToLine floorW floorH edge offset width).x1 ∧
          (mainDoorToLine floorW floorH edge offset width).x2 ≤ floorW / 2)) ∧
     (edge = Edge.E ∨ edge = Edge.W →
        DOOR_W_MIN ≤ (mainDoorToLine floorW floorH edge offset width).y2 -
          (mainDoorToLine floorW floorH edge offset width).y1 ∧
        (DOOR_W_MIN ≤ floorH →
          -(floorH / 2) ≤ (mainDoorToLine floorW floorH edge offset width).y1 ∧
          (mainDoorToLine floorW floorH edge offset width).y2 ≤ floorH / 2))) := by
  obtain ⟨hcoW, hcwW, hsumW⟩ := doorClamp_facts floorW offset width
  obtain ⟨hcoH, hcwH, hsumH⟩ := doorClamp_facts floorH offset width
  cases edge <;>
    simp only [mainDoorToLine, reduceCtorEq, IsEmpty.forall_iff, forall_const,
      false_or, or_false, true_and, and_true, false_implies, true_implies] <;>
    refine ⟨by linarith, fun hlen => ⟨?_, ?_⟩⟩ <;>
    first
      | linarith [hsumW hlen]
      | linarith [hsumH hlen]

/-- Witness for C4 at floor 10×8, south edge, offset 2, width 1. -/
theorem c4_door_clamping_witness :
    (mainDoorToLine 10 8 Edge.S 2 1).y1 = -((8 : ℚ) / 2) ∧
    DOOR_W_MIN ≤ (mainDoorToLine 10 8 Edge.S 2 1).x2 -
      (mainDoorToLine 10 8 Edge.S 2 1).x1 ∧
    -((10 : ℚ) / 2) ≤ (mainDoorToLine 10 8 Edge.S 2 1).x1 ∧
    (mainDoorToLine 10 8 Edge.S 2 1).x2 ≤ (10 : ℚ) / 2 := by
  have h := c4_door_clamping 10 8 2 1 Edge.S
  exact ⟨(h.1.2.1 rfl).1, (h.2.1 (Or.inr rfl)).1,
    (h.2.1 (Or.inr rfl)).2 (by norm_num [DOOR_W_MIN])⟩

/-- C4 counterexample: floor 0.5×1, south edge (length 0.5 < 0.6 m),
requested width 2.  The clamped width is forced *up* to 0.6 — not down to
the edge length — so the right endpoint `x2 = -0.25 + 0.6 = 0.35`
overshoots `floorW/2 = 0.25`, and the segment width is 0.6, not the full
edge length 0.5. -/
theorem c4_counterexample :
    (0.5 : ℚ) / 2 < (mainDoorToLine 0.5 1 Edge.S 0 2).x2 ∧
    (mainDoorToLine 0.5 1 Edge.S 0 2).x2 - (mainDoorToLine 0.5 1 Edge.S 0 2).x1 ≠
      0.5 := by
  have h : mainDoorToLine 0.5 1 Edge.S 0 2 =
      ⟨-(1 / 4) + 0 + 0.6 / 2 - 0.6 / 2, -(1 / 2),
        -(1 / 4) + 0 + 0.6 / 2 + 0.6 / 2, -(1 / 2)⟩ := by
    simp (disch := norm_num [DOOR_W_MIN]) only [mainDoorToLine, DOOR_W_MIN,
      min_eq_right, max_eq_left]
    norm_num
  rw [h]
  norm_num

/-! ### C10 -/

/-- C10: when the preset catalogue contains the requested type,
`getRoomConfig` returns the catalogue's minimum area, '#'-normalized color
and label, but the hard-coded aspect ratio 1.2 regardless of the catalogue
entry; consequently (absent usable-dimension clamping) the sizing step's
width is `sqrtFn(workingArea · 1.2)`. -/
theorem c10_catalogue_aspect (pd : RoomPresetsData) (r : RoomReq)
    (config : RoomPresetConfig) (sqrtFn : ℚ → ℚ) (usableW usableH scale : ℚ)
    (hfind : pd.roomTypes.find? (fun rt => rt.type == r.type) = some config)
    (hw : ¬ sqrtFn (max (MIN_SIDE * MIN_SIDE) (config.area.min * scale) * 1.2) >
      usableW)
    (hh : ¬ max MIN_SIDE (max (MIN_SIDE * MIN_SIDE) (config.area.min * scale) /
        sqrtFn (max (MIN_SIDE * MIN_SIDE) (config.area.min * scale) * 1.2)) >
      usableH) :
    getRoomConfig r.type (some pd) =
      ⟨config.area.min, 1.2, normalizeColor config.color, config.label,
        config.area.min, config.area.max, config.presets⟩ ∧
    (sizedRoom sqrtFn (some pd) usableW usableH scale r).w =
      sqrtFn (max (MIN_SIDE * MIN_SIDE) (config.area.min * scale) * 1.2) := by
  have hcfg : getRoomConfig r.type (some pd) =
      ⟨config.area.min, 1.2, normalizeColor config.color, config.label,
        config.area.min, config.area.max, config.presets⟩ := by
    simp [getRoomConfig, hfind]
  refine ⟨hcfg, ?_⟩
  simp only [sizedRoom, hcfg]
  simp [hw, hh]

/-- Witness for C10 with a one-entry catalogue for "bed". -/
theorem c10_catalogue_aspect_witness :
    getRoomConfig "bed" (some ⟨[⟨"bed", "Bed room", ⟨4, 8⟩, "aabbcc", []⟩]⟩) =
      ⟨4, 1.2, normalizeColor "aabbcc", "Bed room", 4, 8, []⟩ ∧
    (sizedRoom (fun _ => 2) (some ⟨[⟨"bed", "Bed room", ⟨4, 8⟩, "aabbcc", []⟩]⟩)
        10 10 1 ⟨"b1", "bed", []⟩).w = 2 := by
  have h := c10_catalogue_aspect ⟨[⟨"bed", "Bed room", ⟨4, 8⟩, "aabbcc", []⟩]⟩
    ⟨"b1", "bed", []⟩ ⟨"bed", "Bed room", ⟨4, 8⟩, "aabbcc", []⟩ (fun _ => 2)
    10 10 1 rfl
    (by show ¬ (2 : ℚ) > 10; norm_num)
    (by
      show ¬ max MIN_SIDE (max (MIN_SIDE * MIN_SIDE) ((4 : ℚ) * 1) / 2) > 10
      have h1 : max (MIN_SIDE * MIN_SIDE) ((4 : ℚ) * 1) = 4 := by
        rw [max_eq_right (by norm_num [MIN_SIDE])]
        norm_num
      rw [h1, max_eq_right (by norm_num [MIN_SIDE] : MIN_SIDE ≤ (4 : ℚ) / 2)]
      norm_num)
  exact h

/-! ### C5 -/

/-- C5 (amended): with `scale = min(1, usableArea/desiredSum)`: when the
total requested preset area exceeds the (nonnegative) usable area the
scale is the common factor `< 1`, but each room's working area is
`max(MIN_SIDE², presetArea·scale)` — clamped *up* to 1 m², not exactly
`presetArea·scale`; when the usable area is at least the (positive)
requested sum the scale is exactly 1 and the working area equals the
preset target for preset areas of at least 1 m². -/
theorem c5_scale_monotonicity (presetsData : Option RoomPresetsData)
    (rooms : List RoomReq) (usableArea usableW usableH : ℚ) (sqrtFn : ℚ → ℚ)
    (r : RoomReq) :
    (0 ≤ usableArea →
      usableArea < rooms.foldl
        (fun s x => s + (getRoomConfig x.type presetsData).area) 0 →
      sizingScale presetsData usableArea rooms < 1) ∧
    (sizedRoom sqrtFn presetsData usableW usableH
        (sizingScale presetsData usableArea rooms) r).area =
      max (MIN_SIDE * MIN_SIDE) ((getRoomConfig r.type presetsData).area *
        sizingScale presetsData usableArea rooms) ∧
    (0 < rooms.foldl (fun s x => s + (getRoomConfig x.type presetsData).area) 0 →
      rooms.foldl (fun s x => s + (getRoomConfig x.type presetsData).area) 0 ≤
        usableArea →
      sizingScale presetsData usableArea rooms = 1 ∧
      (1 ≤ (getRoomConfig r.type presetsData).area →
        (sizedRoom sqrtFn presetsData usableW usableH
            (sizingScale presetsData usableArea rooms) r).area =
          (getRoomConfig r.type presetsData).area)) := by
  refine ⟨fun h0 h1 => ?_, rfl, fun hS hle => ?_⟩
  · have hS : (0 : ℚ) < rooms.foldl
        (fun s x => s + (getRoomConfig x.type presetsData).area) 0 :=
      lt_of_le_of_lt h0 h1
    have hd : desiredSumOf presetsData rooms = rooms.foldl
        (fun s x => s + (getRoomConfig x.type presetsData).area) 0 := by
      simp only [desiredSumOf]
      rw [if_neg (ne_of_gt hS)]
    simp only [sizingScale, hd]
    exact lt_of_le_of_lt (min_le_right _ _) ((div_lt_one hS).mpr h1)
  · have hd : desiredSumOf presetsData rooms = rooms.foldl
        (fun s x => s + (getRoomConfig x.type presetsData).area) 0 := by
      simp only [desiredSumOf]
      rw [if_neg (ne_of_gt hS)]
    have hscale : sizingScale presetsData usableArea rooms = 1 := by
      simp only [sizingScale, hd]
      exact min_eq_left ((le_div_iff hS).mpr (by linarith))
    refine ⟨hscale, fun ha => ?_⟩
    show max (MIN_SIDE * MIN_SIDE) ((getRoomConfig r.type presetsData).area *
      sizingScale presetsData usableArea rooms) = _
    rw [hscale, mul_one]
    have hm : (MIN_SIDE * MIN_SIDE : ℚ) = 1 := by norm_num [MIN_SIDE]
    rw [hm]
    exact max_eq_right ha

/-- Witness for C5: one wc (preset area 4) with usable area 2 gives scale
1/2 < 1; with usable area 100 the scale is exactly 1 and the working area
is the preset area 4. -/
theorem c5_scale_monotonicity_witness :
    sizingScale none 2 [⟨"w1", "wc", []⟩] < 1 ∧
    sizingScale none 100 [⟨"w1", "wc", []⟩] = 1 ∧
    (sizedRoom (fun q => q) none 50 50 (sizingScale none 100 [⟨"w1", "wc", []⟩])
        ⟨"w1", "wc", []⟩).area = (getRoomConfig "wc" none).area := by
  have hs : (0 : ℚ) + (getRoomConfig "wc" none).area = 4 := by
    simp [getRoomConfig, ROOM_BASE]
  have h1 := (c5_scale_monotonicity none [⟨"w1", "wc", []⟩] 2 50 50
    (fun q => q) ⟨"w1", "wc", []⟩).1 (by norm_num)
    (by simp only [List.foldl_cons, List.foldl_nil]; rw [hs]; norm_num)
  have h2 := (c5_scale_monotonicity none [⟨"w1", "wc", []⟩] 100 50 50
    (fun q => q) ⟨"w1", "wc", []⟩).2.2
    (by simp only [List.foldl_cons, List.foldl_nil]; rw [hs]; norm_num)
    (by simp only [List.foldl_cons, List.foldl_nil]; rw [hs]; norm_num)
  exact ⟨h1, h2.1, h2.2 (by simp [getRoomConfig, ROOM_BASE] <;> norm_num)⟩

/-- C5 counterexample: one wc room (preset area 4) with usable area 1/2:
the scale is 1/8 < 1, but the room's working area is clamped up to
`MIN_SIDE² = 1` and is *not* `presetArea · scale = 1/2`. -/
theorem c5_counterexample :
    sizingScale none (1 / 2) [⟨"w1", "wc", []⟩] < 1 ∧
    (sizedRoom (fun q => q) none 10 10 (sizingScale none (1 / 2) [⟨"w1", "wc", []⟩])
        ⟨"w1", "wc", []⟩).area ≠
      (getRoomConfig "wc" none).area * sizingScale none (1 / 2) [⟨"w1", "wc", []⟩] := by
  have hcfg : getRoomConfig "wc" none =
      ⟨4, 1, "#ffccbc", "WC", 4, 8, []⟩ := by
    simp [getRoomConfig, ROOM_BASE] <;> norm_num
  have hs : sizingScale none (1 / 2 : ℚ) [⟨"w1", "wc", []⟩] = 1 / 8 := by
    simp only [sizingScale, desiredSumOf, List.foldl_cons, List.foldl_nil, hcfg]
    rw [if_neg (by norm_num : ¬ (0 : ℚ) + 4 = 0)]
    rw [min_eq_right (by norm_num : (1 / 2 : ℚ) / (0 + 4) ≤ 1)]
    norm_num
  constructor
  · rw [hs]; norm_num
  · show max (MIN_SIDE * MIN_SIDE) ((getRoomConfig "wc" none).area *
      sizingScale none (1 / 2) [⟨"w1", "wc", []⟩]) ≠ _
    rw [hcfg, hs]
    rw [max_eq_left (by norm_num [MIN_SIDE] : (4 : ℚ) * (1 / 8) ≤ MIN_SIDE * MIN_SIDE)]
    norm_num [MIN_SIDE]

/-! ### C9 -/

theorem cornerAttempts_le (livingRect : Option Rect) (placed : List PlacedRoom)
    (usableW usableH : ℚ) (corner : Corner) :
    ∀ fuel w h, cornerAttempts livingRect placed usableW usableH corner fuel w h ≤
      fuel := by
  intro fuel
  induction fuel with
  | zero => intro w h; simp [cornerAttempts]
  | succ n ih =>
    intro w h
    simp only [cornerAttempts]
    split
    · split
      · have := ih (w * SHRINK_STEP) (h * SHRINK_STEP)
        omega
      · omega
    · omega

theorem tryPlaceCornerGo_dims (presetsData : Option RoomPresetsData)
    (livingRect : Option Rect) (placed : List PlacedRoom) (usableW usableH : ℚ)
    (room : SizedRoom) (corner : Corner) :
    ∀ fuel w h p, SHRINK_STEP < w → SHRINK_STEP < h →
      tryPlaceCornerGo presetsData livingRect placed usableW usableH room corner
        fuel w h = some p →
      SHRINK_STEP < p.w ∧ SHRINK_STEP < p.h := by
  intro fuel
  induction fuel with
  | zero => intro w h p _ _ hcontra; simp [tryPlaceCornerGo] at hcontra
  | succ n ih =>
    intro w h p hw hh hp
    simp only [tryPlaceCornerGo] at hp
    split at hp
    · split at hp
      · rename_i hclash hguard
        have hspos : (0 : ℚ) < SHRINK_STEP := by norm_num [SHRINK_STEP]
        have hw1 : (1 : ℚ) < w := by
          have := hguard.1
          simpa [MIN_SIDE] using this
        have hh1 : (1 : ℚ) < h := by
          have := hguard.2
          simpa [MIN_SIDE] using this
        have hw2 : SHRINK_STEP < w * SHRINK_STEP := by
          calc SHRINK_STEP = 1 * SHRINK_STEP := (one_mul _).symm
          _ < w * SHRINK_STEP := by exact mul_lt_mul_of_pos_right hw1 hspos
        have hh2 : SHRINK_STEP < h * SHRINK_STEP := by
          calc SHRINK_STEP = 1 * SHRINK_STEP := (one_mul _).symm
          _ < h * SHRINK_STEP := by exact mul_lt_mul_of_pos_right hh1 hspos
        exact ih (w * SHRINK_STEP) (h * SHRINK_STEP) p hw2 hh2 hp
      · exact absurd hp (by simp)
    · rename_i hclash
      injection hp with hp
      subst hp
      exact ⟨hw, hh⟩

/-- C9 (amended): corner placement makes at most 25 candidate attempts and
shrinks both dimensions by the fixed factor 0.95 only while both still
exceed the minimum side length 1 m, so a successfully placed room that
entered with both dimensions ≥ 1 m leaves with width and height > 0.95 m
— which can be strictly *below* the 1 m minimum (see the counterexample):
the code does not clamp the shrunk dimensions at 1 m. -/
theorem c9_corner_shrink (presetsData : Option RoomPresetsData)
    (livingRect : Option Rect) (placed : List PlacedRoom) (usableW usableH : ℚ)
    (room : SizedRoom) (corner : Corner) (p : PlacedRoom)
    (hw : 1 ≤ room.w) (hh : 1 ≤ room.h)
    (hp : tryPlaceCorner presetsData livingRect placed usableW usableH room
      corner = some p) :
    cornerAttempts livingRect placed usableW usableH corner 25 room.w room.h ≤ 25 ∧
    SHRINK_STEP < p.w ∧ SHRINK_STEP < p.h := by
  refine ⟨cornerAttempts_le _ _ _ _ _ 25 room.w room.h, ?_⟩
  exact tryPlaceCornerGo_dims presetsData livingRect placed usableW usableH room
    corner 25 room.w room.h p
    (lt_of_lt_of_le (by norm_num [SHRINK_STEP]) hw)
    (lt_of_lt_of_le (by norm_num [SHRINK_STEP]) hh) hp

/-- Witness for C9 at a clash-free corner: a 2×2 room in an empty layout
is placed on the first attempt at its full size. -/
theorem c9_corner_shrink_witness :
    cornerAttempts none [] 10 10 Corner.NW 25 2 2 ≤ 25 ∧
    SHRINK_STEP < (2 : ℚ) ∧ SHRINK_STEP < (2 : ℚ) := by
  have h := c9_corner_shrink none none [] 10 10 ⟨"a", "bed", 2, 2, 1, "c", "l"⟩
    Corner.NW
    (mkPlaced none ⟨"a", "bed", 2, 2, 1, "c", "l"⟩ (-(10 / 2) + 2 / 2)
      (10 / 2 - 2 / 2) 2 2)
    (by norm_num) (by norm_num) rfl
  exact h

/-- C9 counterexample: a 1.02×1.02 room whose NW-corner candidate clashes
with one already-placed obstacle at full size is placed after a single
shrink at 0.969×0.969 — strictly below the 1 m minimum side length. -/
theorem tryPlaceCornerGo_step (presetsData : Option RoomPresetsData)
    (livingRect : Option Rect) (placed : List PlacedRoom) (usableW usableH : ℚ)
    (room : SizedRoom) (corner : Corner) (fuel : ℕ) (w h : ℚ) :
    tryPlaceCornerGo presetsData livingRect placed usableW usableH room corner
      (fuel + 1) w h =
      (if clashAt livingRect placed
          ⟨(idealCornerCenterUsable usableW usableH corner w h).1,
           (idealCornerCenterUsable usableW usableH corner w h).2, w, h⟩ then
        (if MIN_SIDE < w ∧ MIN_SIDE < h then
          tryPlaceCornerGo presetsData livingRect placed usableW usableH room
            corner fuel (w * SHRINK_STEP) (h * SHRINK_STEP)
        else none)
      else some (mkPlaced presetsData room
        (idealCornerCenterUsable usableW usableH corner w h).1
        (idealCornerCenterUsable usableW usableH corner w h).2 w h)) := rfl

theorem c9_counterexample :
    (tryPlaceCorner none none
        [⟨"obs", "bed", -703 / 200, 9 / 2, 103 / 100, 1, "c", "l", none⟩] 10 10
        ⟨"rr", "bed", 51 / 50, 51 / 50, 1, "c", "l"⟩ Corner.NW).map
      (fun p => (p.w, p.h)) =
      some (51 / 50 * SHRINK_STEP, 51 / 50 * SHRINK_STEP) ∧
    (51 / 50 * SHRINK_STEP : ℚ) < MIN_SIDE ∧ (1 : ℚ) ≤ 51 / 50 := by
  have hclash1 : clashAt none
      [⟨"obs", "bed", -703 / 200, 9 / 2, 103 / 100, 1, "c", "l", none⟩]
      ⟨(idealCornerCenterUsable 10 10 Corner.NW (51 / 50) (51 / 50)).1,
       (idealCornerCenterUsable 10 10 Corner.NW (51 / 50) (51 / 50)).2,
       51 / 50, 51 / 50⟩ = true := by
    simp only [clashAt, overlapsPlaced, List.any_cons, List.any_nil, roomRect,
      Bool.or_false, Bool.false_or, idealCornerCenterUsable]
    rw [rectsOverlap_eq_true_iff]
    norm_num
  have hclash2 : clashAt none
      [⟨"obs", "bed", -703 / 200, 9 / 2, 103 / 100, 1, "c", "l", none⟩]
      ⟨(idealCornerCenterUsable 10 10 Corner.NW (51 / 50 * SHRINK_STEP)
          (51 / 50 * SHRINK_STEP)).1,
       (idealCornerCenterUsable 10 10 Corner.NW (51 / 50 * SHRINK_STEP)
          (51 / 50 * SHRINK_STEP)).2,
       51 / 50 * SHRINK_STEP, 51 / 50 * SHRINK_STEP⟩ = false := by
    simp only [clashAt, overlapsPlaced, List.any_cons, List.any_nil, roomRect,
      Bool.or_false, Bool.false_or, idealCornerCenterUsable]
    rw [rectsOverlap_eq_false_iff]
    left
    norm_num [SHRINK_STEP]
  refine ⟨?_, by norm_num [SHRINK_STEP, MIN_SIDE], by norm_num⟩
  show (tryPlaceCornerGo none none _ 10 10 _ Corner.NW (24 + 1) (51 / 50)
    (51 / 50)).map (fun p => (p.w, p.h)) = _
  rw [tryPlaceCornerGo_step, hclash1, if_pos rfl,
    if_pos (⟨by norm_num [MIN_SIDE], by norm_num [MIN_SIDE]⟩ :
      MIN_SIDE < (51 : ℚ) / 50 ∧ MIN_SIDE < (51 : ℚ) / 50)]
  show (tryPlaceCornerGo none none _ 10 10 _ Corner.NW (23 + 1)
    (51 / 50 * SHRINK_STEP) (51 / 50 * SHRINK_STEP)).map (fun p => (p.w, p.h)) = _
  rw [tryPlaceCornerGo_step, hclash2]
  rfl

/-! ### Placement soundness: every successful attempt is clash-free -/

theorem noOverlap_left {a b : Rect} (h : a.x + a.w / 2 ≤ b.x - b.w / 2) :
    rectsOverlap a b = false :=
  (rectsOverlap_eq_false_iff a b).mpr (Or.inl h)

theorem noOverlap_right {a b : Rect} (h : b.x + b.w / 2 ≤ a.x - a.w / 2) :
    rectsOverlap a b = false :=
  (rectsOverlap_eq_false_iff a b).mpr (Or.inr (Or.inl h))

theorem noOverlap_below {a b : Rect} (h : b.y + b.h / 2 ≤ a.y - a.h / 2) :
    rectsOverlap a b = false :=
  (rectsOverlap_eq_false_iff a b).mpr (Or.inr (Or.inr (Or.inr h)))

theorem overlapsPlaced_eq_false_forall {placed : List PlacedRoom} {cand : Rect}
    (h : overlapsPlaced placed cand = false) :
    ∀ p ∈ placed, rectsOverlap cand (roomRect p) = false := by
  intro p hp
  simp only [overlapsPlaced, List.any_eq_false] at h
  simpa using h p hp

theorem clashAt_false_overlaps {livingRect : Option Rect} {placed : List PlacedRoom}
    {cand : Rect} (h : clashAt livingRect placed cand = false) :
    overlapsPlaced placed cand = false := by
  simp only [clashAt, Bool.or_eq_false_iff] at h
  exact h.2

theorem tryPlaceCornerGo_clash_free (presetsData : Option RoomPresetsData)
    (livingRect : Option Rect) (placed : List PlacedRoom) (usableW usableH : ℚ)
    (room : SizedRoom) (corner : Corner) :
    ∀ fuel w h p,
      tryPlaceCornerGo presetsData livingRect placed usableW usableH room corner
        fuel w h = some p →
      clashAt livingRect placed (roomRect p) = false := by
  intro fuel
  induction fuel with
  | zero => intro w h p hcontra; simp [tryPlaceCornerGo] at hcontra
  | succ n ih =>
    intro w h p hp
    rw [tryPlaceCornerGo_step] at hp
    split at hp
    · split at hp
      · exact ih _ _ p hp
      · exact absurd hp (by simp)
    · rename_i hcl
      injection hp with hp
      subst hp
      simpa [roomRect, mkPlaced] using hcl

theorem firstFit_clash_free (presetsData : Option RoomPresetsData)
    (livingRect : Option Rect) (placed : List PlacedRoom) (room : SizedRoom) :
    ∀ cands p, firstFit presetsData livingRect placed room cands = some p →
      clashAt livingRect placed (roomRect p) = false := by
  intro cands
  induction cands with
  | nil => intro p h; simp [firstFit] at h
  | cons c rest ih =>
    intro p hp
    simp only [firstFit] at hp
    split at hp
    · exact ih p hp
    · rename_i hcl
      injection hp with hp
      subst hp
      simpa [roomRect, mkPlaced] using hcl

theorem placeOne_clash_free {presetsData : Option RoomPresetsData}
    {livingRect : Option Rect} {usableW usableH : ℚ} {cornerOrder : List Corner}
    {placed : List PlacedRoom} {r : SizedRoom} {p : PlacedRoom}
    (hp : placeOne presetsData livingRect usableW usableH cornerOrder placed r =
      some p) :
    clashAt livingRect placed (roomRect p) = false := by
  simp only [placeOne] at hp
  split at hp
  · rename_i q hq
    injection hp with hp
    subst hp
    obtain ⟨corner, _, hcorner⟩ := List.exists_of_findSome?_eq_some hq
    exact tryPlaceCornerGo_clash_free presetsData livingRect placed usableW usableH
      r corner 25 r.w r.h q hcorner
  · split at hp
    · rename_i q hq
      injection hp with hp
      subst hp
      exact firstFit_clash_free presetsData livingRect placed r _ q hq
    · exact firstFit_clash_free presetsData livingRect placed r _ p hp

/-! ### The no-overlap invariant of the placement loop -/

theorem pairwise_snoc {placed : List PlacedRoom} {p : PlacedRoom}
    (hpair : placed.Pairwise
      (fun a b => rectsOverlap (roomRect a) (roomRect b) = false))
    (hnew : overlapsPlaced placed (roomRect p) = false) :
    (placed ++ [p]).Pairwise
      (fun a b => rectsOverlap (roomRect a) (roomRect b) = false) := by
  rw [List.pairwise_append]
  refine ⟨hpair, List.pairwise_singleton _ _, ?_⟩
  intro a ha b hb
  rw [List.mem_singleton] at hb
  subst hb
  exact rectsOverlap_false_symm (overlapsPlaced_eq_false_forall hnew a ha)

theorem placeRooms_pairwise (presetsData : Option RoomPresetsData)
    (livingRect : Option Rect) (usableW usableH : ℚ) (cornerOrder : List Corner) :
    ∀ (rooms : List SizedRoom) (placed : List PlacedRoom) (warnings : List Warning),
      placed.Pairwise (fun a b => rectsOverlap (roomRect a) (roomRect b) = false) →
      (placeRooms presetsData livingRect usableW usableH cornerOrder rooms placed
        warnings).1.Pairwise
        (fun a b => rectsOverlap (roomRect a) (roomRect b) = false) := by
  intro rooms
  induction rooms with
  | nil => intro placed warnings h; simpa [placeRooms] using h
  | cons r rest ih =>
    intro placed warnings h
    simp only [placeRooms]
    split
    · rename_i p hp
      exact ih _ _ (pairwise_snoc h (clashAt_false_overlaps (placeOne_clash_free hp)))
    · exact ih _ _ h

theorem roomRect_attachRawDoors (rooms : List RoomReq) (p : PlacedRoom) :
    roomRect (attachRawDoors rooms p) = roomRect p := by
  simp only [attachRawDoors]
  split
  · split <;> rfl
  · rfl

theorem pairwise_map_attach {rooms : List RoomReq} {l : List PlacedRoom}
    (h : l.Pairwise (fun a b => rectsOverlap (roomRect a) (roomRect b) = false)) :
    (l.map (attachRawDoors rooms)).Pairwise
      (fun a b => rectsOverlap (roomRect a) (roomRect b) = false) := by
  rw [List.pairwise_map]
  exact h.imp (fun hab => by rwa [roomRect_attachRawDoors, roomRect_attachRawDoors])

theorem heuristicPlace_pairwise (presetsData : Option RoomPresetsData) (edge : Edge)
    (usableW usableH : ℚ) (mdCenter : ℚ × ℚ) (sized : List SizedRoom)
    (warnings0 : List Warning) :
    (heuristicPlace presetsData edge usableW usableH mdCenter sized
      warnings0).1.Pairwise
      (fun a b => rectsOverlap (roomRect a) (roomRect b) = false) := by
  simp only [heuristicPlace]
  split
  · exact placeRooms_pairwise _ _ _ _ _ _ _ _ (List.pairwise_singleton _ _)
  · exact placeRooms_pairwise _ _ _ _ _ _ _ _ List.Pairwise.nil

theorem tryFixedLayout_pairwise {input : FloorInput}
    {presetsData : Option RoomPresetsData} {fixed : LayoutResult}
    (h : tryFixedLayout input presetsData = some fixed) :
    fixed.rooms.Pairwise
      (fun a b => rectsOverlap (roomRect a) (roomRect b) = false) := by
  simp only [tryFixedLayout] at h
  split at h
  · split at h
    · injection h with h
      subst h
      apply pairwise_map_attach
      refine List.Pairwise.cons ?_ (List.Pairwise.cons ?_ (List.Pairwise.cons ?_
        (List.Pairwise.cons ?_ (List.Pairwise.cons ?_
          (List.pairwise_singleton _ _)))))
      · intro b hb
        simp only [List.mem_cons, List.not_mem_nil, or_false] at hb
        rcases hb with rfl | rfl | rfl | rfl | rfl <;>
          first
            | exact noOverlap_left (by simp only [roomRect]; linarith)
            | exact noOverlap_right (by simp only [roomRect]; linarith)
            | exact noOverlap_below (by simp only [roomRect]; linarith)
      · intro b hb
        simp only [List.mem_cons, List.not_mem_nil, or_false] at hb
        rcases hb with rfl | rfl | rfl | rfl <;>
          first
            | exact noOverlap_left (by simp only [roomRect]; linarith)
            | exact noOverlap_right (by simp only [roomRect]; linarith)
            | exact noOverlap_below (by simp only [roomRect]; linarith)
      · intro b hb
        simp only [List.mem_cons, List.not_mem_nil, or_false] at hb
        rcases hb with rfl | rfl | rfl <;>
          first
            | exact noOverlap_left (by simp only [roomRect]; linarith)
            | exact noOverlap_right (by simp only [roomRect]; linarith)
            | exact noOverlap_below (by simp only [roomRect]; linarith)
      · intro b hb
        simp only [List.mem_cons, List.not_mem_nil, or_false] at hb
        rcases hb with rfl | rfl <;>
          first
            | exact noOverlap_left (by simp only [roomRect]; linarith)
            | exact noOverlap_right (by simp only [roomRect]; linarith)
            | exact noOverlap_below (by simp only [roomRect]; linarith)
      · intro b hb
        simp only [List.mem_cons, List.not_mem_nil, or_false] at hb
        rcases hb with rfl <;>
          first
            | exact noOverlap_left (by simp only [roomRect]; linarith)
            | exact noOverlap_right (by simp only [roomRect]; linarith)
            | exact noOverlap_below (by simp only [roomRect]; linarith)
    · exact absurd h (by simp)
  · exact absurd h (by simp)

/-- C1 (amended): under the exact-rational evaluation of the emitted
coordinates, every layout `generateLayout` produces — fixed template or
heuristic — has pairwise non-overlapping rooms under `rectsOverlap`
(touching edges are excluded by `<=`/`>=`), for every input, catalogue
snapshot, void ratio and square-root oracle.  For the heuristic branch
this reflects an arithmetic-independent argument (every emitted room
passed the `rectsOverlap` guard against all already-placed rooms, on the
very values stored), but for the fixed-template branch the exact-rational
reading is load-bearing: the template's living room and first bedroom
touch exactly over ℚ, and in the source's IEEE-double arithmetic that
pair strictly overlaps (see the counterexample). -/
theorem c1_no_overlap (sqrtFn : ℚ → ℚ) (voidRatio : ℚ)
    (presetsData : Option RoomPresetsData) (input : FloorInput) (skip : Bool) :
    (generateLayout sqrtFn voidRatio presetsData input skip).rooms.Pairwise
      (fun a b => rectsOverlap (roomRect a) (roomRect b) = false) := by
  simp only [generateLayout]
  split
  · rename_i fixed hfix
    simpa using tryFixedLayout_pairwise hfix
  · simp only [generateHeuristic, finishLayout]
    exact pairwise_map_attach (heuristicPlace_pairwise _ _ _ _ _ _ _)

set_option maxRecDepth 8192 in
/-- C1 counterexample: at the fixed-template input the produced layout
emits the living room (index 0, center `-7.0+0.15`, width 6, height
`5.0-2·0.15`) and the first bedroom (index 2, center `-1.5+0.15`, width
5).  Over exact rationals these touch (`-3.85 = -3.85`) and
`rectsOverlap` is `false`; but evaluating the same coordinates and the
same overlap test in IEEE-double arithmetic — `fl` is binary64
round-to-nearest-ties-even, `addD`/`subD`/`mulD`/`divD` the rounded
JavaScript operations — the living room's right edge
`fl(fl(-7+fl(0.15))+3) = -8669429282688204/2^51` lands one ulp *above*
the bedroom's left edge `fl(fl(-1.5+fl(0.15))-2.5) =
-8669429282688205/2^51`, every separation test fails, and the source's
`rectsOverlap` returns `true` for this pair of the produced layout. -/
theorem c1_counterexample :
    ((generateLayout (fun q => q) 0.15 none templateInput true).rooms.map
      (fun r => (r.x, r.y, r.w, r.h)))[0]? =
      some (((-7.0 + 0.15, 0, 6.0, 5.0 - 2 * 0.15) : ℚ × ℚ × ℚ × ℚ)) ∧
    ((generateLayout (fun q => q) 0.15 none templateInput true).rooms.map
      (fun r => (r.x, r.y, r.w, r.h)))[2]? =
      some (((-1.5 + 0.15, -0.75, 5.0, 3.5) : ℚ × ℚ × ℚ × ℚ)) ∧
    rectsOverlap ⟨-7.0 + 0.15, 0, 6.0, 5.0 - 2 * 0.15⟩
      ⟨-1.5 + 0.15, -0.75, 5.0, 3.5⟩ = false ∧
    rectsOverlapD ⟨addD (-7) (fl 0.15), 0, 6, subD 5 (mulD 2 (fl 0.15))⟩
      ⟨addD (-1.5) (fl 0.15), -0.75, 5, 3.5⟩ = true := by
  refine ⟨rfl, rfl, noOverlap_left (by norm_num), ?_⟩
  have ht : fl 0.15 = 5404319552844595 / 2 ^ 55 := by
    rw [fl_eq_down 0.15 (-3) 5404319552844595 (by norm_num)
      (by rw [abs_of_pos (by norm_num)]; norm_num)
      (by rw [abs_of_pos (by norm_num)]; norm_num)
      (by norm_num) (by norm_num)]
    norm_num
  have h2t : mulD 2 (fl 0.15) = 5404319552844595 / 2 ^ 54 := by
    rw [ht]
    unfold mulD
    rw [fl_eq_exact ((2 : ℚ) * (5404319552844595 / 2 ^ 55)) (-2) 5404319552844595
      (by norm_num)
      (by rw [abs_of_pos (by norm_num)]; norm_num)
      (by rw [abs_of_pos (by norm_num)]; norm_num)
      (by norm_num)]
    norm_num
  have hlivH : subD 5 (mulD 2 (fl 0.15)) = 5291729562160333 / 2 ^ 50 := by
    rw [h2t]
    unfold subD
    rw [fl_eq_up ((5 : ℚ) - 5404319552844595 / 2 ^ 54) 2 5291729562160332
      (by norm_num)
      (by rw [abs_of_pos (by norm_num)]; norm_num)
      (by rw [abs_of_pos (by norm_num)]; norm_num)
      (by norm_num) (by norm_num)]
    norm_num
  have hlx : addD (-7) (fl 0.15) = -3856207180935987 / 2 ^ 49 := by
    rw [ht]
    unfold addD
    rw [fl_eq_up ((-7 : ℚ) + 5404319552844595 / 2 ^ 55) 2 (-7712414361871975)
      (by norm_num)
      (by rw [abs_of_neg (by norm_num)]; norm_num)
      (by rw [abs_of_neg (by norm_num)]; norm_num)
      (by norm_num) (by norm_num)]
    norm_num
  have hbx : addD (-1.5) (fl 0.15) = -3039929748475085 / 2 ^ 51 := by
    rw [ht]
    unfold addD
    rw [fl_eq_down ((-1.5 : ℚ) + 5404319552844595 / 2 ^ 55) 0 (-6079859496950170)
      (by norm_num)
      (by rw [abs_of_neg (by norm_num)]; norm_num)
      (by rw [abs_of_neg (by norm_num)]; norm_num)
      (by norm_num) (by norm_num)]
    norm_num
  have hd6 : divD 6 2 = 3 := by
    unfold divD
    rw [fl_eq_exact ((6 : ℚ) / 2) 1 6755399441055744 (by norm_num)
      (by rw [abs_of_pos (by norm_num)]; norm_num)
      (by rw [abs_of_pos (by norm_num)]; norm_num)
      (by norm_num)]
    norm_num
  have hd5 : divD 5 2 = 5 / 2 := by
    unfold divD
    rw [fl_eq_exact ((5 : ℚ) / 2) 1 5629499534213120 (by norm_num)
      (by rw [abs_of_pos (by norm_num)]; norm_num)
      (by rw [abs_of_pos (by norm_num)]; norm_num)
      (by norm_num)]
  have hd35 : divD 3.5 2 = 7 / 4 := by
    unfold divD
    rw [fl_eq_exact ((3.5 : ℚ) / 2) 0 7881299347898368 (by norm_num)
      (by rw [abs_of_pos (by norm_num)]; norm_num)
      (by rw [abs_of_pos (by norm_num)]; norm_num)
      (by norm_num)]
    norm_num
  have hdh : divD (5291729562160333 / 2 ^ 50) 2 = 5291729562160333 / 2 ^ 51 := by
    unfold divD
    rw [fl_eq_exact ((5291729562160333 / 2 ^ 50 : ℚ) / 2) 1 5291729562160333
      (by norm_num)
      (by rw [abs_of_pos (by norm_num)]; norm_num)
      (by rw [abs_of_pos (by norm_num)]; norm_num)
      (by norm_num)]
    norm_num
  have hL1 : addD (-3856207180935987 / 2 ^ 49) 3 = -2167357320672051 / 2 ^ 49 := by
    unfold addD
    rw [fl_eq_exact ((-3856207180935987 / 2 ^ 49 : ℚ) + 3) 1 (-8669429282688204)
      (by norm_num)
      (by rw [abs_of_neg (by norm_num)]; norm_num)
      (by rw [abs_of_neg (by norm_num)]; norm_num)
      (by norm_num)]
    norm_num
  have hR1 : subD (-3039929748475085 / 2 ^ 51) (5 / 2) =
      -8669429282688205 / 2 ^ 51 := by
    unfold subD
    rw [fl_eq_exact ((-3039929748475085 / 2 ^ 51 : ℚ) - 5 / 2) 1 (-8669429282688205)
      (by norm_num)
      (by rw [abs_of_neg (by norm_num)]; norm_num)
      (by rw [abs_of_neg (by norm_num)]; norm_num)
      (by norm_num)]
    norm_num
  have hL2 : subD (-3856207180935987 / 2 ^ 49) 3 = -5545057041199923 / 2 ^ 49 := by
    unfold subD
    rw [fl_eq_exact ((-3856207180935987 / 2 ^ 49 : ℚ) - 3) 3 (-5545057041199923)
      (by norm_num)
      (by rw [abs_of_neg (by norm_num)]; norm_num)
      (by rw [abs_of_neg (by norm_num)]; norm_num)
      (by norm_num)]
    norm_num
  have hR2 : addD (-3039929748475085 / 2 ^ 51) (5 / 2) =
      2589569785738035 / 2 ^ 51 := by
    unfold addD
    rw [fl_eq_exact ((-3039929748475085 / 2 ^ 51 : ℚ) + 5 / 2) 0 5179139571476070
      (by norm_num)
      (by rw [abs_of_pos (by norm_num)]; norm_num)
      (by rw [abs_of_pos (by norm_num)]; norm_num)
      (by norm_num)]
    norm_num
  have hL3 : addD 0 (5291729562160333 / 2 ^ 51) = 5291729562160333 / 2 ^ 51 := by
    unfold addD
    rw [fl_eq_exact ((0 : ℚ) + 5291729562160333 / 2 ^ 51) 1 5291729562160333
      (by norm_num)
      (by rw [abs_of_pos (by norm_num)]; norm_num)
      (by rw [abs_of_pos (by norm_num)]; norm_num)
      (by norm_num)]
    norm_num
  have hR3 : subD (-0.75) (7 / 4) = -5 / 2 := by
    unfold subD
    rw [fl_eq_exact ((-0.75 : ℚ) - 7 / 4) 1 (-5629499534213120) (by norm_num)
      (by rw [abs_of_neg (by norm_num)]; norm_num)
      (by rw [abs_of_neg (by norm_num)]; norm_num)
      (by norm_num)]
    norm_num
  have hL4 : subD 0 (5291729562160333 / 2 ^ 51) = -5291729562160333 / 2 ^ 51 := by
    unfold subD
    rw [fl_eq_exact ((0 : ℚ) - 5291729562160333 / 2 ^ 51) 1 (-5291729562160333)
      (by norm_num)
      (by rw [abs_of_neg (by norm_num)]; norm_num)
      (by rw [abs_of_neg (by norm_num)]; norm_num)
      (by norm_num)]
    norm_num
  have hR4 : addD (-0.75) (7 / 4) = 1 := by
    unfold addD
    rw [fl_eq_exact ((-0.75 : ℚ) + 7 / 4) 0 4503599627370496 (by norm_num)
      (by rw [abs_of_pos (by norm_num)]; norm_num)
      (by rw [abs_of_pos (by norm_num)]; norm_num)
      (by norm_num)]
    norm_num
  simp only [rectsOverlapD]
  rw [hlx, hbx, hlivH, hd6, hd5, hd35, hdh, hL1, hR1, hL2, hR2, hL3, hR3, hL4, hR4]
  simp only [ge_iff_le, Bool.not_eq_true', Bool.or_eq_false_iff,
    decide_eq_false_iff_not]
  norm_num

/-! ### C8: placed rooms + dropped-room warnings = requested rooms -/

theorem countCannotPlace_append (a b : List Warning) :
    countCannotPlace (a ++ b) = countCannotPlace a + countCannotPlace b :=
  List.countP_append _ _ _

theorem countCannotPlace_lowEff (c : Prop) [Decidable c] (e : ℚ) :
    countCannotPlace (if c then [Warning.lowEfficiency e] else []) = 0 := by
  split <;> rfl

theorem countCannotPlace_highEff (c : Prop) [Decidable c] (e : ℚ) :
    countCannotPlace (if c then [Warning.highEfficiency e] else []) = 0 := by
  split <;> rfl

theorem countCannotPlace_thick (c : Prop) [Decidable c] (t : ℚ) :
    countCannotPlace (if c then [Warning.thickWall t] else []) = 0 := by
  split <;> rfl

theorem countCannotPlace_insuff (c : Prop) [Decidable c] :
    countCannotPlace (if c then [Warning.insufficientArea] else []) = 0 := by
  split <;> rfl

theorem countCannotPlace_efficiencyWarnings
    (validation : Option RoomValidationResult) :
    countCannotPlace (efficiencyWarnings validation) = 0 := by
  cases validation with
  | none => rfl
  | some v =>
    simp only [efficiencyWarnings, countCannotPlace_append]
    rw [countCannotPlace_lowEff, countCannotPlace_highEff]

theorem placeRooms_count (presetsData : Option RoomPresetsData)
    (livingRect : Option Rect) (usableW usableH : ℚ) (cornerOrder : List Corner) :
    ∀ (rooms : List SizedRoom) (placed : List PlacedRoom) (warnings : List Warning),
      (placeRooms presetsData livingRect usableW usableH cornerOrder rooms placed
        warnings).1.length +
        countCannotPlace (placeRooms presetsData livingRect usableW usableH
          cornerOrder rooms placed warnings).2 =
        placed.length + countCannotPlace warnings + rooms.length := by
  intro rooms
  induction rooms with
  | nil => intro placed warnings; simp [placeRooms]
  | cons r rest ih =>
    intro placed warnings
    simp only [placeRooms]
    split
    · rw [ih]
      simp only [List.length_append, List.length_cons, List.length_nil]
      omega
    · rw [ih, countCannotPlace_append]
      have h1 : countCannotPlace
          [Warning.cannotPlace (getRoomConfig r.type presetsData).label] = 1 := rfl
      simp only [List.length_cons, h1]
      omega

theorem filter_ne_id_length (x : SizedRoom) :
    ∀ l : List SizedRoom, (l.map (fun r => r.id)).Nodup → x ∈ l →
      (l.filter (fun r => r.id != x.id)).length + 1 = l.length := by
  intro l
  induction l with
  | nil => intro _ h; cases h
  | cons a rest ih =>
    intro hnd hx
    simp only [List.map_cons, List.nodup_cons] at hnd
    obtain ⟨ha, hrest⟩ := hnd
    by_cases hid : a.id = x.id
    · have hrfilter : rest.filter (fun r => r.id != x.id) = rest := by
        rw [List.filter_eq_self]
        intro r hr
        simp only [bne_iff_ne, ne_eq, decide_eq_true_eq]
        intro hcontra
        refine ha ?_
        rw [hid]
        rw [← hcontra]
        exact List.mem_map_of_mem _ hr
      rw [List.filter_cons_of_neg (by simp [hid])]
      rw [hrfilter]
      simp
    · have hx2 : x ∈ rest := by
        rcases List.mem_cons.mp hx with h | h
        · subst h
          exact absurd rfl hid
        · exact h
      have hih := ih hrest hx2
      rw [List.filter_cons_of_pos (by simp [bne_iff_ne, ne_eq, hid])]
      simp only [List.length_cons]
      omega

theorem heuristicPlace_count (presetsData : Option RoomPresetsData) (edge : Edge)
    (usableW usableH : ℚ) (mdCenter : ℚ × ℚ) (sized : List SizedRoom)
    (warnings0 : List Warning) (hnd : (sized.map (fun r => r.id)).Nodup) :
    (heuristicPlace presetsData edge usableW usableH mdCenter sized
      warnings0).1.length +
      countCannotPlace (heuristicPlace presetsData edge usableW usableH mdCenter
        sized warnings0).2 =
      sized.length + countCannotPlace warnings0 := by
  simp only [heuristicPlace]
  split
  · rename_i livingBase hfind
    rw [placeRooms_count]
    have hmem := List.mem_of_find?_eq_some hfind
    have hfl := filter_ne_id_length livingBase sized hnd hmem
    rw [List.length_mergeSort]
    simp only [List.length_cons, List.length_nil]
    omega
  · rw [placeRooms_count]
    rw [List.length_mergeSort]
    simp only [List.length_nil]
    omega

theorem sized_ids (sqrtFn : ℚ → ℚ) (presetsData : Option RoomPresetsData)
    (usableW usableH scale : ℚ) (rooms : List RoomReq) :
    ((rooms.map (sizedRoom sqrtFn presetsData usableW usableH scale)).map
      (fun r => r.id)) = rooms.map (fun r => r.id) := by
  rw [List.map_map]
  exact List.map_congr_left (fun r _ => rfl)

/-- C8: in every heuristic-engine run (i.e. whenever the fixed template
does not match) with distinct room ids, each requested room is either
emitted as exactly one placed rectangle or dropped with one
"cannot place" warning, so placed rooms + dropped-room warnings =
requested rooms; the engine is a total function, so dropped rooms never
abort the generation call. -/
theorem c8_place_or_warn (sqrtFn : ℚ → ℚ) (voidRatio : ℚ)
    (presetsData : Option RoomPresetsData) (input : FloorInput) (skip : Bool)
    (hnd : (input.rooms.map (fun r => r.id)).Nodup)
    (hfix : tryFixedLayout input presetsData = none) :
    (generateLayout sqrtFn voidRatio presetsData input skip).rooms.length +
      countCannotPlace
        (generateLayout sqrtFn voidRatio presetsData input skip).warnings =
      input.rooms.length := by
  simp only [generateLayout, hfix]
  simp only [generateHeuristic, finishLayout]
  rw [List.length_map, countCannotPlace_append, countCannotPlace_append,
    countCannotPlace_thick, countCannotPlace_insuff]
  simp only [add_zero]
  rw [heuristicPlace_count]
  · rw [countCannotPlace_efficiencyWarnings, List.length_map]
    simp
  · rw [sized_ids]
    exact hnd

theorem placeRooms_length_le (presetsData : Option RoomPresetsData)
    (livingRect : Option Rect) (usableW usableH : ℚ) (cornerOrder : List Corner) :
    ∀ (rooms : List SizedRoom) (placed : List PlacedRoom) (warnings : List Warning),
      (placeRooms presetsData livingRect usableW usableH cornerOrder rooms placed
        warnings).1.length ≤ placed.length + rooms.length := by
  intro rooms
  induction rooms with
  | nil => intro placed warnings; simp [placeRooms]
  | cons r rest ih =>
    intro placed warnings
    simp only [placeRooms]
    split
    · refine le_trans (ih _ _) ?_
      simp only [List.length_append, List.length_cons, List.length_nil]
      omega
    · refine le_trans (ih _ _) ?_
      simp only [List.length_cons]
      omega

theorem heuristicPlace_length_le (presetsData : Option RoomPresetsData)
    (edge : Edge) (usableW usableH : ℚ) (mdCenter : ℚ × ℚ)
    (sized : List SizedRoom) (warnings0 : List Warning) :
    (heuristicPlace presetsData edge usableW usableH mdCenter sized
      warnings0).1.length ≤ sized.length := by
  simp only [heuristicPlace]
  split
  · rename_i livingBase hfind
    have hmem := List.mem_of_find?_eq_some hfind
    have hlt : (sized.filter (fun r => r.id != livingBase.id)).length <
        sized.length := by
      rw [List.length_filter_lt_length_iff_exists]
      exact ⟨livingBase, hmem, by simp⟩
    refine le_trans (placeRooms_length_le _ _ _ _ _ _ _ _) ?_
    rw [List.length_mergeSort]
    simp only [List.length_cons, List.length_nil]
    omega
  · refine le_trans (placeRooms_length_le _ _ _ _ _ _ _ _) ?_
    rw [List.length_mergeSort]
    simp

/-- Witness for C8: a single bed room on a 10×10 floor (template does not
match) yields placed + warned = 1. -/
theorem c8_place_or_warn_witness :
    (generateLayout (fun _ => 2) 0.15 none
        ⟨⟨10, 10, ⟨Edge.S, 1, 1⟩⟩, [⟨"b1", "bed", []⟩], none⟩ true).rooms.length +
      countCannotPlace (generateLayout (fun _ => 2) 0.15 none
        ⟨⟨10, 10, ⟨Edge.S, 1, 1⟩⟩, [⟨"b1", "bed", []⟩], none⟩ true).warnings = 1 :=
  c8_place_or_warn (fun _ => 2) 0.15 none
    ⟨⟨10, 10, ⟨Edge.S, 1, 1⟩⟩, [⟨"b1", "bed", []⟩], none⟩ true
    (by simp) rfl

/-! ### C3: template precedence and fallback on mismatch -/

/-- C3: for the exact input floor 20×5, main door on W, rooms
2 bed + 2 wc + 1 kitchen + 1 living, `generateLayout` returns the fixed
template — the room centers are exactly the template's literal
coordinates for every catalogue snapshot, void ratio and sqrt oracle;
with 1 bed instead of 2 the template matcher returns nothing and the
heuristic engine's output (at most 5 rooms) cannot equal the template's
6 centers. -/
theorem c3_template_precedence :
    (∀ (sqrtFn : ℚ → ℚ) (voidRatio : ℚ) (presetsData : Option RoomPresetsData)
        (skip : Bool),
      (generateLayout sqrtFn voidRatio presetsData templateInput skip).rooms.map
        (fun r => (r.x, r.y)) = templateCenters) ∧
    (∀ (sqrtFn : ℚ → ℚ) (voidRatio : ℚ) (presetsData : Option RoomPresetsData)
        (skip : Bool),
      tryFixedLayout mismatchInput presetsData = none ∧
      (generateLayout sqrtFn voidRatio presetsData mismatchInput skip).rooms.map
        (fun r => (r.x, r.y)) ≠ templateCenters) := by
  refine ⟨fun sqrtFn voidRatio presetsData skip => rfl,
    fun sqrtFn voidRatio presetsData skip => ⟨rfl, fun heq => ?_⟩⟩
  have hfix0 : tryFixedLayout mismatchInput presetsData = none := rfl
  have hlen := congrArg List.length heq
  rw [List.length_map] at hlen
  have hle : (generateLayout sqrtFn voidRatio presetsData mismatchInput
      skip).rooms.length ≤ 5 := by
    simp only [generateLayout, hfix0, generateHeuristic, finishLayout]
    rw [List.length_map]
    refine le_trans (heuristicPlace_length_le _ _ _ _ _ _ _) ?_
    simp [mismatchInput]
  rw [hlen] at hle
  simp [templateCenters] at hle

/-! ### C2: the containment invariant fails on the fixed template -/

/-- C2 is violated by the code: on the fixed-template input (exterior
thickness defaulting to 0.15) the layout places the kitchen (index 1)
with right edge `8.25 + 0.15 + 3.5/2 = 10.15`, beyond the usable
half-width `(20 − 2·0.15)/2 = 9.85` required by the containment claim —
indeed beyond the floor half-width 10 itself. -/
theorem c2_containment_bug :
    ((generateLayout (fun q => q) 0.15 none templateInput true).rooms.map
      (fun r => r.x + r.w / 2))[1]? = some ((8.25 : ℚ) + 0.15 + 3.5 / 2) ∧
    ((20 : ℚ) - 2 * 0.15) / 2 < (8.25 : ℚ) + 0.15 + 3.5 / 2 ∧
    (10 : ℚ) < (8.25 : ℚ) + 0.15 + 3.5 / 2 :=
  ⟨rfl, by norm_num, by norm_num⟩

end FloorTool
